import Mathlib

/-!
Shallow embedding of the Valis AI backend core
(`src/backend/src/core/global_chat.py`,
 `src/backend/src/core/autonomous_intelligence.py`,
 `src/backend/src/core/chat_modes.py`) and proofs about it.

Python dictionaries are modelled as association lists that keep insertion
order (assignment to an existing key updates it in place, a new key is
appended), matching CPython dict semantics.  `time.time()` values are taken
as natural numbers supplied by the caller; every operation receives the
timestamps and fresh uuid strings it would draw as explicit arguments.
External collaborators (OpenAI calls, the CodeAct engine) are injected as
arguments: a call that may raise is an `Option`/`Except` value, `none`/
`.error` meaning the Python call raised an exception.
-/

namespace ValisSpec

/-- Lookup in an insertion-ordered association list (Python `d[k]` /
`d.get(k)`). -/
def aget {α : Type} (k : String) : List (String × α) → Option α
  | [] => none
  | (k2, v) :: rest => if k2 == k then some v else aget k rest

/-- Assignment `d[k] = v` on an insertion-ordered association list: an
existing key keeps its position, a new key is appended at the end
(CPython dict behaviour). -/
def aset {α : Type} (k : String) (v : α) : List (String × α) → List (String × α)
  | [] => [(k, v)]
  | (k2, v2) :: rest => if k2 == k then (k2, v) :: rest else (k2, v2) :: aset k v rest

/-- `leadsWith pat l` is true when `pat` is an initial segment of `l`. -/
def leadsWith : List Char → List Char → Bool
  | [], _ => true
  | _ :: _, [] => false
  | a :: as, b :: bs => a == b && leadsWith as bs

/-- `occursIn pat l` is true when `pat` occurs contiguously inside `l`. -/
def occursIn (pat : List Char) : List Char → Bool
  | [] => pat.isEmpty
  | c :: cs => leadsWith pat (c :: cs) || occursIn pat cs

/-- Python's `needle in hay` on strings. -/
def strContains (hay needle : String) : Bool := occursIn needle.data hay.data

/-- ASCII lower-casing of a character (the effect of Python `str.lower()`
on the ASCII keyword alphabet used by the source). -/
def lowerChar (c : Char) : Char :=
  if 'A' ≤ c && c ≤ 'Z' then Char.ofNat (c.toNat + 32) else c

/-- Python `s.lower()`. -/
def strLower (s : String) : String := String.mk (s.data.map lowerChar)

/-- Python `l[-n:]` (used for the message-history cap and recent-message
slices): the last `n` elements of `l`, all of `l` when it is shorter. -/
def lastN {α : Type} (n : Nat) (l : List α) : List α := l.drop (l.length - n)

theorem aget_aset_self {α : Type} (k : String) (v : α) (l : List (String × α)) :
    aget k (aset k v l) = some v := by
  induction l with
  | nil => simp [aget, aset]
  | cons hd tl ih =>
    obtain ⟨k2, v2⟩ := hd
    by_cases h : k2 == k <;> simp [aget, aset, h, ih]

theorem aget_aset_of_ne {α : Type} {k k2 : String} (h : k2 ≠ k) (v : α)
    (l : List (String × α)) : aget k2 (aset k v l) = aget k2 l := by
  induction l with
  | nil =>
    have hne : ¬ k = k2 := fun hc => h hc.symm
    simp [aget, aset, hne]
  | cons hd tl ih =>
    obtain ⟨k3, v3⟩ := hd
    by_cases h3 : k3 == k
    · have : ¬ (k3 == k2) := by
        simp only [beq_iff_eq] at h3 ⊢
        exact h3 ▸ fun hc => h hc.symm
      simp [aget, aset, h3, this]
    · by_cases h4 : k3 == k2 <;> simp [aget, aset, h3, h4, ih]

namespace GlobalChat

/-- `UserRole` from `global_chat.py`. -/
inductive UserRole
  | guest
  | user
  | creator
  | founder
  | moderator
  | admin
deriving DecidableEq

/-- `MessageType` from `global_chat.py`. -/
inductive MessageType
  | text
  | image
  | file
  | code
  | system
  | announcement
deriving DecidableEq

/-- Dataclass `ChatUser`. -/
structure ChatUser where
  user_id : String
  username : String
  display_name : String
  role : UserRole
  avatar_url : String := ""
  status : String := "online"
  joined_at : Nat := 0
  last_seen : Nat := 0
  message_count : Nat := 0
  reputation : Int := 0
deriving DecidableEq

/-- Dataclass `ChatMessage`.  `reactions` is the Python dict
emoji → list of user ids (`none` models the dataclass default `None`);
attachment payloads are opaque strings. -/
structure ChatMessage where
  message_id : String
  user_id : String
  username : String
  content : String
  message_type : MessageType
  channel_id : String
  timestamp : Nat
  edited_at : Option Nat := none
  reply_to : Option String := none
  reactions : Option (List (String × List String)) := none
  attachments : Option (List String) := none
deriving DecidableEq

/-- A channel dict as built by `_initialize_default_channels`.  The Python
dicts carry a `required_role` key only for restricted channels; that key is
modelled as an `Option`, with `channel.get('required_role', UserRole.USER)`
becoming `getD .user`. -/
structure Channel where
  channel_id : String
  name : String
  description : String
  type : String
  required_role : Option UserRole := none
  created_by : String
  created_at : Nat
  member_count : Nat
  message_count : Nat
  rules : List String
deriving DecidableEq

/-- One row of the per-role `rate_limits` table. -/
structure RateLimit where
  messages_per_minute : Nat
  characters_per_message : Nat
deriving DecidableEq

/-- The `self.rate_limits` configuration table from `__init__`. -/
def rate_limits : UserRole → RateLimit
  | .guest => ⟨5, 500⟩
  | .user => ⟨10, 1000⟩
  | .creator => ⟨20, 2000⟩
  | .founder => ⟨50, 5000⟩
  | .moderator => ⟨100, 10000⟩
  | .admin => ⟨1000, 50000⟩

/-- `self.max_messages_per_channel`. -/
def max_messages_per_channel : Nat := 1000

/-- The mutable state of a `GlobalChatSystem` instance (the fields of
`self` touched by the modelled operations; websocket connection tables are
not needed by any claim and are omitted). -/
structure ChatState where
  users : List (String × ChatUser)
  channels : List (String × Channel)
  messages : List (String × List ChatMessage)
  user_message_history : List (String × List Nat)
deriving DecidableEq

/-- The five bootstrap channels of `_initialize_default_channels`
(creation time abstracted to 0). -/
def initial_channels : List (String × Channel) :=
  [("general",
    { channel_id := "general", name := "General",
      description := "General discussion about Valis AI", type := "public",
      created_by := "system", created_at := 0, member_count := 0,
      message_count := 0,
      rules := ["Be respectful to all community members",
                "No spam or excessive self-promotion",
                "Keep discussions relevant to AI and technology",
                "Use appropriate language"] }),
   ("creators",
    { channel_id := "creators", name := "Creators Hub",
      description := "For creators building with Valis AI", type := "public",
      created_by := "system", created_at := 0, member_count := 0,
      message_count := 0,
      rules := ["Share your creations and get feedback",
                "Collaborate on projects", "Help other creators"] }),
   ("founders",
    { channel_id := "founders", name := "Founders Circle",
      description := "Exclusive channel for founders and entrepreneurs",
      type := "restricted", required_role := some .founder,
      created_by := "system", created_at := 0, member_count := 0,
      message_count := 0,
      rules := ["Business strategy discussions",
                "Networking and partnerships", "Exclusive founder insights"] }),
   ("support",
    { channel_id := "support", name := "Support",
      description := "Get help with Valis AI", type := "public",
      created_by := "system", created_at := 0, member_count := 0,
      message_count := 0,
      rules := ["Ask questions about using Valis AI",
                "Report bugs and issues", "Get technical support"] }),
   ("announcements",
    { channel_id := "announcements", name := "Announcements",
      description := "Official Valis AI announcements", type := "read_only",
      created_by := "system", created_at := 0, member_count := 0,
      message_count := 0,
      rules := ["Official announcements only",
                "Product updates and news", "Community events"] })]

/-- The state right after `GlobalChatSystem.__init__`. -/
def initial_state : ChatState :=
  { users := []
    channels := initial_channels
    messages := initial_channels.map (fun c => (c.1, []))
    user_message_history := [] }

/-- `GlobalChatSystem.register_user`: builds a fresh `ChatUser` and stores
it under `user_id`, unconditionally overwriting any existing record, and
resets the rate-limit history of that user to `[]`. -/
def register_user (st : ChatState) (user_id username display_name : String)
    (role : UserRole) (now : Nat) : ChatState × ChatUser :=
  let chat_user : ChatUser :=
    { user_id := user_id, username := username, display_name := display_name,
      role := role, joined_at := now, last_seen := now }
  ({ st with users := aset user_id chat_user st.users,
             user_message_history := aset user_id [] st.user_message_history },
   chat_user)

/-- `_has_role_or_higher`, via the ordinal position in the
`role_hierarchy` list, exactly as in the source. -/
def role_hierarchy : List UserRole :=
  [.guest, .user, .creator, .founder, .moderator, .admin]

/-- `_has_role_or_higher(user_role, required_role)`. -/
def has_role_or_higher (user_role required_role : UserRole) : Bool :=
  let user_level := role_hierarchy.findIdx (fun r => r == user_role)
  let required_level := role_hierarchy.findIdx (fun r => r == required_role)
  decide (required_level ≤ user_level)

/-- `_can_user_send_message`. -/
def can_user_send_message (user : ChatUser) (channel : Channel) : Bool :=
  if channel.type == "read_only" then
    user.role == .moderator || user.role == .admin
  else if channel.type == "restricted" then
    has_role_or_higher user.role (channel.required_role.getD .user)
  else
    true

/-- `_can_user_join_channel`. -/
def can_user_join_channel (user : ChatUser) (channel : Channel) : Bool :=
  if channel.type == "restricted" then
    has_role_or_higher user.role (channel.required_role.getD .user)
  else
    true

/-- The body of `_check_rate_limit` over the data it touches: the user's
role, their timestamp window, the message content and the current time.
Returns the new stored window together with the verdict.  Mirrors the
source line by line: prune entries with `current_time - msg_time >= 60`,
reject on the count limit, reject on the character limit, otherwise append
the current time and accept. -/
def check_rate_limit (role : UserRole) (hist : List Nat) (content : String)
    (now : Nat) : List Nat × Bool :=
  let limits := rate_limits role
  let hist2 := hist.filter (fun msg_time => now - msg_time < 60)
  if limits.messages_per_minute ≤ hist2.length then
    (hist2, false)
  else if limits.characters_per_message < content.length then
    (hist2, false)
  else
    (hist2 ++ [now], true)

/-- `_check_rate_limit(user_id, content)` acting on the whole state.  The
source indexes `self.users[user_id]` and
`self.user_message_history[user_id]` unconditionally; every caller has
already checked that the user is registered, so the `none` branches below
are dead code standing in for the Python `KeyError`. -/
def check_rate_limit_st (st : ChatState) (user_id content : String)
    (now : Nat) : ChatState × Bool :=
  match aget user_id st.users with
  | none => (st, false)
  | some user =>
    let hist := (aget user_id st.user_message_history).getD []
    let (hist2, ok) := check_rate_limit user.role hist content now
    ({ st with user_message_history := aset user_id hist2 st.user_message_history },
     ok)

/-- Result dict of `send_message`: either `{'error': ...}` or
`{'message_id': ..., 'status': 'sent', 'timestamp': ...}`. -/
inductive SendOutcome
  | err (msg : String)
  | sent (message_id : String) (timestamp : Nat)
deriving DecidableEq

/-- `GlobalChatSystem.send_message`.  `mid` is the uuid the call would
draw and `now` its `time.time()`. -/
def send_message (st : ChatState) (user_id channel_id content : String)
    (message_type : MessageType) (reply_to : Option String)
    (mid : String) (now : Nat) : ChatState × SendOutcome :=
  match aget user_id st.users with
  | none => (st, .err "User not found")
  | some user =>
    match aget channel_id st.channels with
    | none => (st, .err "Channel not found")
    | some channel =>
      if !can_user_send_message user channel then
        (st, .err "Permission denied")
      else
        let (st1, ok) := check_rate_limit_st st user_id content now
        if !ok then
          (st1, .err "Rate limit exceeded")
        else
          let message : ChatMessage :=
            { message_id := mid, user_id := user_id, username := user.username,
              content := content, message_type := message_type,
              channel_id := channel_id, timestamp := now,
              reply_to := reply_to, reactions := some [], attachments := some [] }
          let msgs := (aget channel_id st1.messages).getD [] ++ [message]
          let msgs2 :=
            if max_messages_per_channel < msgs.length then
              lastN max_messages_per_channel msgs
            else msgs
          let user2 := { user with message_count := user.message_count + 1,
                                   last_seen := now }
          let channel2 := { channel with message_count := channel.message_count + 1 }
          ({ st1 with messages := aset channel_id msgs2 st1.messages,
                      users := aset user_id user2 st1.users,
                      channels := aset channel_id channel2 st1.channels },
           .sent mid now)

/-- `_find_message`: first message with the given id, scanning channels in
dict order and each channel's list front to back. -/
def find_in_list (mid : String) : List ChatMessage → Option ChatMessage
  | [] => none
  | m :: ms => if m.message_id == mid then some m else find_in_list mid ms

/-- `_find_message` across the channel table in dict order. -/
def find_across (mid : String) : List (String × List ChatMessage) → Option ChatMessage
  | [] => none
  | (_, ms) :: rest =>
    match find_in_list mid ms with
    | some m => some m
    | none => find_across mid rest

/-- `_find_message` over the whole `self.messages` table. -/
def find_message (st : ChatState) (mid : String) : Option ChatMessage :=
  find_across mid st.messages

/-- The in-place mutation performed by `add_reaction` on the found
`ChatMessage` object: ensure the emoji key exists, then append the user id
if it is not already present. -/
def react_upd (user_id emoji : String) (m : ChatMessage) : ChatMessage :=
  let rs := m.reactions.getD []
  let rs1 := if (aget emoji rs).isSome then rs else aset emoji [] rs
  let lst := (aget emoji rs1).getD []
  if user_id ∈ lst then { m with reactions := some rs1 }
  else { m with reactions := some (aset emoji (lst ++ [user_id]) rs1) }

/-- Apply `f` to the first message with id `mid` in a channel's list;
`none` when absent. -/
def upd_in_list (mid : String) (f : ChatMessage → ChatMessage) :
    List ChatMessage → Option (List ChatMessage)
  | [] => none
  | m :: ms =>
    if m.message_id == mid then some (f m :: ms)
    else match upd_in_list mid f ms with
      | none => none
      | some ms2 => some (m :: ms2)

/-- Apply `f` to the first message with id `mid` across all channels in
dict order (this is the effect of Python mutating the object returned by
`_find_message`). -/
def upd_message (mid : String) (f : ChatMessage → ChatMessage) :
    List (String × List ChatMessage) → Option (List (String × List ChatMessage))
  | [] => none
  | (cid, ms) :: rest =>
    match upd_in_list mid f ms with
    | some ms2 => some ((cid, ms2) :: rest)
    | none =>
      match upd_message mid f rest with
      | none => none
      | some rest2 => some ((cid, ms) :: rest2)

/-- Result dict of `add_reaction`. -/
inductive ReactOutcome
  | err (msg : String)
  | added (message_id emoji : String)
deriving DecidableEq

/-- `GlobalChatSystem.add_reaction`. -/
def add_reaction (st : ChatState) (user_id message_id emoji : String) :
    ChatState × ReactOutcome :=
  match upd_message message_id (react_upd user_id emoji) st.messages with
  | none => (st, .err "Message not found")
  | some msgs2 =>
    ({ st with messages := msgs2 }, .added message_id emoji)

/-- One `send_message` call description (timestamp and drawn uuid
included), used to run a sequence of sends against one channel. -/
structure SendCall where
  user_id : String
  content : String
  message_type : MessageType
  reply_to : Option String
  mid : String
  now : Nat
deriving DecidableEq

/-- Run a sequence of `send_message` calls against channel `cid`; the
boolean is true when every call reported `sent`. -/
def run_sends (st : ChatState) (cid : String) : List SendCall → ChatState × Bool
  | [] => (st, true)
  | c :: cs =>
    match send_message st c.user_id cid c.content c.message_type c.reply_to c.mid c.now with
    | (st1, .sent _ _) => run_sends st1 cid cs
    | (_, .err _) => (st, false)

/-- Run `_check_rate_limit` once per timestamp in `times`, threading the
stored window; returns the final window and the list of verdicts. -/
def run_checks (role : UserRole) (content : String) (hist : List Nat) :
    List Nat → List Nat × List Bool
  | [] => (hist, [])
  | t :: ts =>
    let (h2, ok) := check_rate_limit role hist content t
    let (h3, oks) := run_checks role content h2 ts
    (h3, ok :: oks)

end GlobalChat

namespace AI

/-- `TaskType` from `autonomous_intelligence.py`. -/
inductive TaskType
  | website_creation
  | presentation
  | image_generation
  | video_creation
  | api_development
  | full_stack_app
  | data_analysis
  | automation
  | general_chat
deriving DecidableEq

/-- Python `TaskType(s)`: `some` when `s` is one of the enum values,
`none` when the constructor would raise `ValueError`. -/
def TaskType.ofString (s : String) : Option TaskType :=
  if s == "website_creation" then some .website_creation
  else if s == "presentation" then some .presentation
  else if s == "image_generation" then some .image_generation
  else if s == "video_creation" then some .video_creation
  else if s == "api_development" then some .api_development
  else if s == "full_stack_app" then some .full_stack_app
  else if s == "data_analysis" then some .data_analysis
  else if s == "automation" then some .automation
  else if s == "general_chat" then some .general_chat
  else none

/-- `ExecutionStatus` from `autonomous_intelligence.py`. -/
inductive ExecutionStatus
  | planning
  | executing
  | testing
  | deploying
  | completed
  | error
deriving DecidableEq

/-- The JSON analysis produced by `analyze_intent` (either parsed from the
LLM reply or the hard-coded fallback).  `task_type` stays a string: the
enum conversion `TaskType(analysis["task_type"])` happens later, in
`create_task`, and can raise there. -/
structure Analysis where
  task_type : String
  complexity : String
  confidence : ℚ
  description : String
  technologies : List String
  steps : List String
  estimated_time : String
  deliverables : List String
deriving DecidableEq

/-- A value stored in a task's `results` dict / in `self.memory`: either a
plain string or the nested analysis dict. -/
inductive RVal
  | str (s : String)
  | analysisVal (a : Analysis)
deriving DecidableEq

/-- Dataclass `Task`. -/
structure Task where
  id : String
  type : TaskType
  description : String
  status : ExecutionStatus
  progress : Nat
  steps : List String
  current_step : Nat
  results : List (String × RVal)
  created_at : Nat
  updated_at : Nat
deriving DecidableEq

/-- Mutable state of an `AutonomousIntelligence` instance. -/
structure AIState where
  active_tasks : List (String × Task)
  memory : List (String × RVal)
deriving DecidableEq

/-- The hard-coded fallback analysis returned by `analyze_intent` when the
OpenAI call (or the JSON parse of its reply) raises. -/
def fallback_analysis (user_input : String) : Analysis :=
  { task_type := "general_chat"
    complexity := "simple"
    confidence := 0.5
    description := "General request: " ++ user_input
    technologies := []
    steps := ["Process request", "Generate response"]
    estimated_time := "1 minute"
    deliverables := ["AI response"] }

/-- `AutonomousIntelligence.analyze_intent`.  The injected collaborator
result `llm` is the parsed JSON of a successful OpenAI round trip, `none`
when anything in the `try` block raised. -/
def analyze_intent (user_input : String) (llm : Option Analysis) : Analysis :=
  match llm with
  | some analysis => analysis
  | none => fallback_analysis user_input

/-- `AutonomousIntelligence.create_task`.  `tid` is the uuid the call
draws, `now` its `time.time()`.  The `.error` branch is the uncaught
`ValueError` that `TaskType(analysis["task_type"])` raises when a
successful classification carries an unknown task type. -/
def create_task (st : AIState) (user_input : String) (llm : Option Analysis)
    (tid : String) (now : Nat) : Except String (AIState × String) :=
  let analysis := analyze_intent user_input llm
  match TaskType.ofString analysis.task_type with
  | none => .error ("ValueError: invalid TaskType " ++ analysis.task_type)
  | some ty =>
    let task : Task :=
      { id := tid, type := ty, description := analysis.description,
        status := .planning, progress := 0, steps := analysis.steps,
        current_step := 0,
        results := [("analysis", .analysisVal analysis),
                    ("user_input", .str user_input)],
        created_at := now, updated_at := now }
    .ok ({ st with active_tasks := aset tid task st.active_tasks }, tid)

/-- Return dict of `execute_task`: `{'error': ...}` (unknown id or caught
executor exception) or the success dict. -/
inductive ExecOutcome
  | err (msg : String)
  | ok (task_id : String) (status : ExecutionStatus) (progress : Nat)
      (results : List (String × RVal))
deriving DecidableEq

/-- Shared failure branch of every `_execute_*` method: status ERROR, the
exception text under the `error` results key, `{'error': str(e)}`
returned.  (`status = EXECUTING` and `updated_at` were already written by
`execute_task` before dispatch and persist.) -/
def exec_fail (st : AIState) (tid : String) (task : Task) (e : String) :
    AIState × ExecOutcome :=
  let t2 := { task with status := .error,
                         results := aset "error" (.str e) task.results }
  ({ st with active_tasks := aset tid t2 st.active_tasks }, .err e)

/-- Shared success epilogue: store the final task and return the success
dict. -/
def exec_ok (st : AIState) (tid : String) (t2 : Task) : AIState × ExecOutcome :=
  ({ st with active_tasks := aset tid t2 st.active_tasks },
   .ok t2.id t2.status t2.progress t2.results)

/-- `_execute_website_creation`.  `collab` is the OpenAI completion:
`.ok content` or `.error e` when the call raised. -/
def exec_website (st : AIState) (tid : String) (task : Task)
    (collab : Except String String) (now : Nat) : AIState × ExecOutcome :=
  match collab with
  | .error e => exec_fail st tid task e
  | .ok content =>
    let results2 := aset "status" (.str "Website generated successfully")
      (aset "generated_content" (.str content) task.results)
    let results3 := aset "deployment_url"
      (.str ("https://valis-ai-" ++ tid.take 8 ++ ".vercel.app")) results2
    exec_ok st tid { task with progress := 100, current_step := 2,
                               status := .completed, updated_at := now,
                               results := results3 }

/-- `_execute_presentation_creation`. -/
def exec_presentation (st : AIState) (tid : String) (task : Task)
    (collab : Except String String) : AIState × ExecOutcome :=
  match collab with
  | .error e => exec_fail st tid task e
  | .ok content =>
    let results2 := aset "status" (.str "Presentation created successfully")
      (aset "presentation_content" (.str content) task.results)
    exec_ok st tid { task with progress := 100, status := .completed,
                               results := results2 }

/-- `_execute_image_generation` (`content` is the DALL-E image url). -/
def exec_image (st : AIState) (tid : String) (task : Task)
    (collab : Except String String) : AIState × ExecOutcome :=
  match collab with
  | .error e => exec_fail st tid task e
  | .ok content =>
    let results2 := aset "status" (.str "Image generated successfully")
      (aset "image_url" (.str content) task.results)
    exec_ok st tid { task with progress := 100, status := .completed,
                               results := results2 }

/-- `_execute_api_development`. -/
def exec_api (st : AIState) (tid : String) (task : Task)
    (collab : Except String String) : AIState × ExecOutcome :=
  match collab with
  | .error e => exec_fail st tid task e
  | .ok content =>
    let results2 := aset "api_url"
      (.str ("https://api-valis-" ++ tid.take 8 ++ ".vercel.app"))
      (aset "status" (.str "API created successfully")
        (aset "api_code" (.str content) task.results))
    exec_ok st tid { task with progress := 100, status := .completed,
                               results := results2 }

/-- `_execute_fullstack_development`. -/
def exec_fullstack (st : AIState) (tid : String) (task : Task)
    (collab : Except String String) : AIState × ExecOutcome :=
  match collab with
  | .error e => exec_fail st tid task e
  | .ok content =>
    let results2 := aset "backend_url"
      (.str ("https://api-valis-" ++ tid.take 8 ++ ".vercel.app"))
      (aset "frontend_url"
        (.str ("https://app-valis-" ++ tid.take 8 ++ ".vercel.app"))
        (aset "status" (.str "Full-stack application created successfully")
          (aset "application_code" (.str content) task.results)))
    exec_ok st tid { task with progress := 100, status := .completed,
                               results := results2 }

/-- `_execute_general_response`.  The `try` block first reads
`task.results["user_input"]`; a missing key raises `KeyError` inside the
`try` and lands in the same `except` branch as an OpenAI failure. -/
def exec_general (st : AIState) (tid : String) (task : Task)
    (collab : Except String String) : AIState × ExecOutcome :=
  match aget "user_input" task.results with
  | none => exec_fail st tid task "KeyError: user_input"
  | some _ =>
    match collab with
    | .error e => exec_fail st tid task e
    | .ok content =>
      let results2 := aset "status" (.str "Response generated successfully")
        (aset "response" (.str content) task.results)
      exec_ok st tid { task with progress := 100, status := .completed,
                                 results := results2 }

/-- `AutonomousIntelligence.execute_task`.  Nothing guards against the
task already being COMPLETED, ERROR or in flight: the status is
overwritten with EXECUTING and the type executor runs again.  `collab` is
the outcome of the external AI call the executor performs. -/
def execute_task (st : AIState) (tid : String)
    (collab : Except String String) (now : Nat) : AIState × ExecOutcome :=
  match aget tid st.active_tasks with
  | none => (st, .err "Task not found")
  | some task0 =>
    let task := { task0 with status := .executing, updated_at := now }
    match task.type with
    | .website_creation => exec_website st tid task collab now
    | .presentation => exec_presentation st tid task collab
    | .image_generation => exec_image st tid task collab
    | .api_development => exec_api st tid task collab
    | .full_stack_app => exec_fullstack st tid task collab
    | _ => exec_general st tid task collab

end AI

namespace Modes

open AI

/-- `ChatMode` from `chat_modes.py`. -/
inductive ChatMode
  | adaptive
  | agent
  | chat
  | custom
deriving DecidableEq

/-- The `.value` string of a mode. -/
def ChatMode.toStr : ChatMode → String
  | .adaptive => "adaptive"
  | .agent => "agent"
  | .chat => "chat"
  | .custom => "custom"

/-- Python `ChatMode(s)`: `none` models the `ValueError` on an unknown
string. -/
def ChatMode.ofString (s : String) : Option ChatMode :=
  if s == "adaptive" then some .adaptive
  else if s == "agent" then some .agent
  else if s == "chat" then some .chat
  else if s == "custom" then some .custom
  else none

/-- The dict returned by `CodeActEngine.execute_task_autonomously` as the
core consumes it (`final_success`, `final_output`, `final_error`). -/
structure ExecutionResult where
  final_success : Bool
  final_output : String
  final_error : String
deriving DecidableEq

/-- One entry of a session's `context` list.  Agent-mode assistant entries
additionally carry `execution_result` and `task_id` keys. -/
structure CtxEntry where
  role : String
  content : String
  timestamp : Nat
  mode : String
  execution_result : Option ExecutionResult := none
  task_id : Option String := none
deriving DecidableEq

/-- One entry of a session's `task_history` list. -/
structure THEntry where
  task_id : String
  message : String
  execution_result : ExecutionResult
  timestamp : Nat
deriving DecidableEq

/-- The `preferences` sub-dict of a session. -/
structure Prefs where
  auto_execute : Bool := true
  show_code : Bool := true
  verbose_output : Bool := false
  safety_checks : Bool := true
deriving DecidableEq

/-- A session dict as created by `create_chat_session`. -/
structure Session where
  session_id : String
  user_id : Option String
  mode : ChatMode
  created_at : Nat
  last_activity : Nat
  message_count : Nat
  context : List CtxEntry
  workspace_id : Option String
  task_history : List THEntry
  preferences : Prefs
deriving DecidableEq

/-- Mutable state of a `ChatModeManager`: the session registry plus the
embedded `AutonomousIntelligence` instance (the CodeAct engine is treated
as an external collaborator). -/
structure CMState where
  active_sessions : List (String × Session)
  ai : AIState
deriving DecidableEq

/-- Parsed JSON of a successful `_analyze_message_intent` LLM round
trip. -/
structure IntentResult where
  intent : String
  recommended_mode : String
  confidence : ℚ
  reasoning : String
deriving DecidableEq

/-- All external-collaborator outcomes and fresh uuids one
`process_message` call can consume.  `none` / `.error` model the
corresponding Python call raising. -/
structure Collab where
  intent_llm : Option IntentResult
  chat_llm : Except String String
  classifier : Option Analysis
  exec_result : ExecutionResult
  fresh_task_id : String
  fresh_workspace_id : String
  fresh_session_id : String

/-- `ChatModeManager.create_chat_session`; `sid` is the drawn uuid. -/
def create_chat_session (st : CMState) (mode : ChatMode)
    (user_id : Option String) (sid : String) (now : Nat) : CMState × String :=
  let session : Session :=
    { session_id := sid, user_id := user_id, mode := mode,
      created_at := now, last_activity := now, message_count := 0,
      context := [], workspace_id := none, task_history := [],
      preferences := {} }
  ({ st with active_sessions := aset sid session st.active_sessions }, sid)

/-- The `agent_keywords` list of the fallback intent analysis. -/
def agent_keywords : List String :=
  ["create", "build", "make", "develop", "code", "program", "deploy",
   "website", "app", "application", "api", "database", "script",
   "automate", "generate", "implement", "execute", "run"]

/-- The `chat_keywords` list of the fallback intent analysis. -/
def chat_keywords : List String :=
  ["what", "how", "why", "explain", "tell me", "describe", "help",
   "question", "understand", "learn", "know", "think", "opinion"]

/-- `_analyze_message_intent`.  On LLM failure (`intent_llm = none`) the
deterministic keyword fallback runs: count agent vs chat keywords in the
lower-cased message; the winning side is recommended with confidence
`min(0.8, 0.5 + 0.1 * score)`, ties going to chat. -/
def analyze_message_intent (message : String) (intent_llm : Option IntentResult) :
    IntentResult :=
  match intent_llm with
  | some r => r
  | none =>
    let message_lower := strLower message
    let agent_score := agent_keywords.countP (fun k => strContains message_lower k)
    let chat_score := chat_keywords.countP (fun k => strContains message_lower k)
    if chat_score < agent_score then
      { intent := "Task execution request"
        recommended_mode := "agent"
        confidence := min 0.8 (0.5 + (agent_score : ℚ) * 0.1)
        reasoning := "Message contains " ++ toString agent_score ++
          " execution-related keywords" }
    else
      { intent := "Conversational inquiry"
        recommended_mode := "chat"
        confidence := min 0.8 (0.5 + (chat_score : ℚ) * 0.1)
        reasoning := "Message contains " ++ toString chat_score ++
          " conversational keywords" }

/-- `_generate_suggestions`: fixed keyword-triggered table, first three
kept. -/
def generate_suggestions (message : String) : List String :=
  let message_lower := strLower message
  let s1 :=
    if ["website", "web", "site"].any (fun w => strContains message_lower w) then
      ["Would you like me to create a website for you?",
       "I can help you build a landing page",
       "Need help with web development?"]
    else []
  let s2 :=
    if ["app", "application", "mobile"].any (fun w => strContains message_lower w) then
      ["I can help you build an application",
       "Would you like to create a mobile app?",
       "Need assistance with app development?"]
    else []
  let s3 :=
    if ["code", "program", "script"].any (fun w => strContains message_lower w) then
      ["I can write and execute code for you",
       "Would you like me to create a script?",
       "Need help with programming?"]
    else []
  (s1 ++ s2 ++ s3).take 3

/-- `_generate_chat_response`: the completion collaborator's reply, or the
fixed apology string when the OpenAI call raised (the context window fed
to the collaborator does not influence the returned value beyond the
injected `chat_llm` outcome). -/
def generate_chat_response (chat_llm : Except String String) : String :=
  match chat_llm with
  | .ok content => content
  | .error _ =>
    "I apologize, but I encountered an error while processing your message. Please try again."

/-- `_generate_agent_response` (the `message` field of the returned
dict). -/
def generate_agent_response (er : ExecutionResult) : String :=
  if er.final_success then
    "âœ… I\x27ve successfully completed your request! " ++ er.final_output
  else
    "I encountered some challenges while working on your request. " ++ er.final_error

/-- The `adaptive_analysis` dict attached to a response by
`_process_adaptive_mode`.  The `clarification_needed` key exists only in
the low-confidence branch; it is modelled as a flag that is true exactly
there. -/
structure AdaptiveInfo where
  detected_intent : String
  recommended_mode : String
  confidence : ℚ
  reasoning : String
  mode_switched : Bool
  clarification_needed : Bool := false
deriving DecidableEq

/-- The response dict of `process_message`, by shape. -/
inductive ModeResponse
  | chatR (session_id : String) (message : String) (suggestions : List String)
      (timestamp : Nat) (adaptive : Option AdaptiveInfo)
  | agentR (session_id : String) (message : String)
      (execution_result : ExecutionResult) (task_id : String)
      (workspace_id : String) (show_code : Bool) (timestamp : Nat)
      (adaptive : Option AdaptiveInfo)
deriving DecidableEq

/-- The `session_id` field of a response. -/
def ModeResponse.sid : ModeResponse → String
  | .chatR s _ _ _ _ => s
  | .agentR s _ _ _ _ _ _ _ => s

/-- The attached `adaptive_analysis`, if any. -/
def ModeResponse.adaptive : ModeResponse → Option AdaptiveInfo
  | .chatR _ _ _ _ a => a
  | .agentR _ _ _ _ _ _ _ a => a

/-- `result['adaptive_analysis'] = info`. -/
def addAdaptive (r : ModeResponse) (info : AdaptiveInfo) : ModeResponse :=
  match r with
  | .chatR s m sg t _ => .chatR s m sg t (some info)
  | .agentR s m er tid wid sc t _ => .agentR s m er tid wid sc t (some info)

/-- `_process_chat_mode` (also the body of `_process_custom_mode`, which
just delegates).  `s` is the current in-memory session object; the updated
session is written back to the registry. -/
def process_chat_mode (st : CMState) (s : Session) (c : Collab) (now : Nat)
    (message : String) : CMState × ModeResponse :=
  let ai_response := generate_chat_response c.chat_llm
  let s2 := { s with context := s.context ++
    [{ role := "assistant", content := ai_response, timestamp := now,
       mode := "chat" }] }
  ({ st with active_sessions := aset s.session_id s2 st.active_sessions },
   .chatR s.session_id ai_response (generate_suggestions message) now none)

/-- The `if not session['workspace_id']` block of `_process_agent_mode`:
bind a fresh CodeAct workspace when the session has none. -/
def ensure_workspace (s : Session) (c : Collab) : Session :=
  match s.workspace_id with
  | some _ => s
  | none => { s with workspace_id := some c.fresh_workspace_id }

/-- `_process_agent_mode`: ensure a workspace, create a task through the
embedded `AutonomousIntelligence`, run the CodeAct collaborator, build the
reply and record everything.  The `.error` branch is the uncaught
`ValueError` that `create_task` can raise. -/
def process_agent_mode (st : CMState) (s : Session) (c : Collab) (now : Nat)
    (message : String) : Except String (CMState × ModeResponse) :=
  let s1 := ensure_workspace s c
  let wsid := s1.workspace_id.getD c.fresh_workspace_id
  match create_task st.ai message c.classifier c.fresh_task_id now with
  | .error e => .error e
  | .ok (ai2, task_id) =>
    let er := c.exec_result
    let ai_response := generate_agent_response er
    let s2 := { s1 with
      context := s1.context ++
        [{ role := "assistant", content := ai_response, timestamp := now,
           mode := "agent", execution_result := some er,
           task_id := some task_id }],
      task_history := s1.task_history ++ [⟨task_id, message, er, now⟩] }
    .ok ({ active_sessions := aset s.session_id s2 st.active_sessions,
           ai := ai2 },
         .agentR s.session_id ai_response er task_id wsid
           s.preferences.show_code now none)

/-- `_process_adaptive_mode`: run the intent analysis; with confidence
strictly above 0.7 switch the stored mode to the recommendation (Python
`ChatMode(recommended_mode)`, which can raise) and dispatch on the
recommendation string, else dispatch as chat and flag
`clarification_needed`. -/
def process_adaptive_mode (st : CMState) (s : Session) (c : Collab) (now : Nat)
    (message : String) : Except String (CMState × ModeResponse) :=
  let analysis := analyze_message_intent message c.intent_llm
  if 0.7 < analysis.confidence then
    match ChatMode.ofString analysis.recommended_mode with
    | none => .error ("ValueError: invalid ChatMode " ++ analysis.recommended_mode)
    | some m =>
      let s1 := { s with mode := m }
      let info : AdaptiveInfo :=
        { detected_intent := analysis.intent,
          recommended_mode := analysis.recommended_mode,
          confidence := analysis.confidence,
          reasoning := analysis.reasoning, mode_switched := true }
      if analysis.recommended_mode == "agent" then
        match process_agent_mode st s1 c now message with
        | .error e => .error e
        | .ok (st2, r) => .ok (st2, addAdaptive r info)
      else
        let (st2, r) := process_chat_mode st s1 c now message
        .ok (st2, addAdaptive r info)
  else
    let (st2, r) := process_chat_mode st s c now message
    .ok (st2, addAdaptive r
      { detected_intent := analysis.intent,
        recommended_mode := analysis.recommended_mode,
        confidence := analysis.confidence,
        reasoning := analysis.reasoning, mode_switched := false,
        clarification_needed := true })

/-- `ChatModeManager.process_message`.  An unknown session id is replaced
by a freshly created session (mode override or ADAPTIVE); the session's
activity fields are bumped, an optional mode override applied, the user
message appended to the context, and the current mode dispatched. -/
def process_message (st : CMState) (session_id : String) (message : String)
    (mode : Option ChatMode) (c : Collab) (now : Nat) :
    Except String (CMState × ModeResponse) :=
  let (st0, sid) :=
    match aget session_id st.active_sessions with
    | some _ => (st, session_id)
    | none => create_chat_session st (mode.getD .adaptive) none c.fresh_session_id now
  match aget sid st0.active_sessions with
  | none => .error "KeyError: session"
  | some s =>
    let s1 := { s with last_activity := now, message_count := s.message_count + 1 }
    let s2 := match mode with
      | some m => { s1 with mode := m }
      | none => s1
    let current_mode := s2.mode
    let s3 := { s2 with context := s2.context ++
      [{ role := "user", content := message, timestamp := now,
         mode := current_mode.toStr }] }
    let st1 := { st0 with active_sessions := aset sid s3 st0.active_sessions }
    match current_mode with
    | .adaptive => process_adaptive_mode st1 s3 c now message
    | .agent => process_agent_mode st1 s3 c now message
    | .chat => .ok (process_chat_mode st1 s3 c now message)
    | .custom => .ok (process_chat_mode st1 s3 c now message)

end Modes

/-! ## Claims -/

open GlobalChat AI Modes

/-- C10: `register_user` with an already-registered `user_id`
unconditionally replaces the stored `ChatUser` (message_count 0,
reputation 0, the newly supplied role) and resets that user's rate-limit
timestamp history to `[]`; all other users and tables are untouched. -/
theorem c10_register_user_overwrites (st : ChatState)
    (uid uname dname : String) (role : UserRole) (now : Nat) :
    aget uid ((register_user st uid uname dname role now).1.users) =
      some { user_id := uid, username := uname, display_name := dname,
             role := role, avatar_url := "", status := "online",
             joined_at := now, last_seen := now, message_count := 0,
             reputation := 0 } ∧
    aget uid ((register_user st uid uname dname role now).1.user_message_history) =
      some [] ∧
    (∀ v, v ≠ uid →
      aget v ((register_user st uid uname dname role now).1.users) = aget v st.users ∧
      aget v ((register_user st uid uname dname role now).1.user_message_history) =
        aget v st.user_message_history) ∧
    (register_user st uid uname dname role now).1.channels = st.channels ∧
    (register_user st uid uname dname role now).1.messages = st.messages := by
  refine ⟨?_, ?_, ?_, rfl, rfl⟩
  · simp [register_user, aget_aset_self]
  · simp [register_user, aget_aset_self]
  · intro v hv
    exact ⟨by simp [register_user, aget_aset_of_ne hv],
           by simp [register_user, aget_aset_of_ne hv]⟩

/-- Witness for C10 at a state that already holds a record for the same
user id with nonzero statistics and a nonempty rate window. -/
theorem c10_witness :
    aget "u1" ((register_user
      { users := [("u1", { user_id := "u1", username := "old", display_name := "Old",
                           role := .admin, message_count := 7, reputation := 3 })],
        channels := [], messages := [],
        user_message_history := [("u1", [1, 2, 3])] }
      "u1" "new" "New" .guest 50).1.users) =
      some { user_id := "u1", username := "new", display_name := "New",
             role := .guest, avatar_url := "", status := "online",
             joined_at := 50, last_seen := 50, message_count := 0,
             reputation := 0 } ∧
    aget "u1" ((register_user
      { users := [("u1", { user_id := "u1", username := "old", display_name := "Old",
                           role := .admin, message_count := 7, reputation := 3 })],
        channels := [], messages := [],
        user_message_history := [("u1", [1, 2, 3])] }
      "u1" "new" "New" .guest 50).1.user_message_history) = some [] ∧
    aget "u2" ((register_user
      { users := [("u1", { user_id := "u1", username := "old", display_name := "Old",
                           role := .admin, message_count := 7, reputation := 3 })],
        channels := [], messages := [],
        user_message_history := [("u1", [1, 2, 3])] }
      "u1" "new" "New" .guest 50).1.users) =
      aget "u2" [("u1", ({ user_id := "u1", username := "old",
                           display_name := "Old", role := .admin,
                           message_count := 7, reputation := 3 } : ChatUser))] := by
  have h := c10_register_user_overwrites
    { users := [("u1", { user_id := "u1", username := "old", display_name := "Old",
                         role := .admin, message_count := 7, reputation := 3 })],
      channels := [], messages := [],
      user_message_history := [("u1", [1, 2, 3])] }
    "u1" "new" "New" .guest 50
  exact ⟨h.1, h.2.1, (h.2.2.1 "u2" (by decide)).1⟩

/-- C4 (amended): when the intent-classifier collaborator fails,
`create_task` does not raise: the default GENERAL_CHAT classification with
the two-step plan `["Process request", "Generate response"]` is
substituted and the task is created in PLANNING state and its id
returned. -/
theorem c4_create_task_classifier_failure (st : AIState) (input tid : String)
    (now : Nat) :
    ∃ st2, create_task st input none tid now = .ok (st2, tid) ∧
      ∃ task, aget tid st2.active_tasks = some task ∧
        task.type = .general_chat ∧ task.status = .planning ∧
        task.progress = 0 ∧ task.current_step = 0 ∧
        task.steps = ["Process request", "Generate response"] ∧
        task.steps.length = 2 := by
  refine ⟨_, rfl, ?_⟩
  refine ⟨_, aget_aset_self _ _ _, rfl, rfl, rfl, rfl, rfl, rfl⟩

/-- C4 counterexample to the claim as stated: the substituted fallback
plan has two steps (`"Process request"`, `"Generate response"`), not
one. -/
theorem c4_counterexample :
    ((create_task ⟨[], []⟩ "hello" none "t1" 0).toOption.bind
      (fun p => (aget "t1" p.1.active_tasks).map (fun t => t.steps.length))) =
      some 2 ∧ (2 : Nat) ≠ 1 := by
  constructor
  · rfl
  · decide

/-- The analysis a successful classification of a website task would
carry (used for the C1 scenario). -/
def w_analysis : Analysis :=
  { task_type := "website_creation", complexity := "medium",
    confidence := 0.9, description := "Coffee shop website",
    technologies := [], steps := ["Design layout", "Create components", "Deploy"],
    estimated_time := "15 minutes", deliverables := [] }

/-- State after `create_task` in the C1 scenario. -/
def c1_after_create : AIState :=
  ((create_task ⟨[], []⟩ "make a website" (some w_analysis) "t1" 0).toOption.map
    Prod.fst).getD ⟨[], []⟩

/-- State after the first, successful `execute_task` in the C1 scenario:
the task reaches COMPLETED with progress 100. -/
def c1_after_first : AIState :=
  (execute_task c1_after_create "t1" (.ok "<html></html>") 1).1

/-- Second `execute_task` on the already COMPLETED task, with a failing
collaborator. -/
def c1_second : AIState × ExecOutcome :=
  execute_task c1_after_first "t1" (.error "boom") 2

/-- C1 counterexample to the claim as stated: after the first execution
the task is COMPLETED with progress 100, yet a second `execute` call on
the same id is neither a no-op nor a `NotFound`/`AlreadyRunning` failure:
it silently re-runs the executor and the stored status becomes ERROR. -/
theorem c1_counterexample :
    (aget "t1" c1_after_first.active_tasks).map
      (fun t => (t.status, t.progress)) = some (.completed, 100) ∧
    (aget "t1" c1_second.1.active_tasks).map (fun t => t.status) =
      some .error ∧
    c1_second.2 ≠ .err "Task not found" := by
  refine ⟨rfl, rfl, ?_⟩
  decide

/-- C1 (amended): `execute` on an unknown id fails NotFound, but a task
whose status is COMPLETED (or ERROR) is not guarded: `execute` silently
re-runs it — with a failing collaborator the stored status becomes ERROR
and the returned error is the collaborator's, never `Task not found` (no
`AlreadyRunning` outcome exists).  Across `execute` operations, progress
is monotonically non-decreasing at every observation point whose status is
not ERROR. -/
theorem c1_execute_rerun_and_progress (st : AIState) (tid : String)
    (collab : Except String String) (now : Nat) :
    (aget tid st.active_tasks = none →
      execute_task st tid collab now = (st, .err "Task not found")) ∧
    (∀ task, aget tid st.active_tasks = some task →
      (task.status = .completed ∨ task.status = .error) →
      ∀ e, collab = .error e →
        (aget tid (execute_task st tid collab now).1.active_tasks).map
          (fun t => t.status) = some .error ∧
        ∃ msg, execute_task st tid collab now = ((execute_task st tid collab now).1, .err msg)) ∧
    (∀ task, aget tid st.active_tasks = some task → task.progress ≤ 100 →
      ∀ t2, aget tid (execute_task st tid collab now).1.active_tasks = some t2 →
        t2.status ≠ .error → task.progress ≤ t2.progress) := by
  refine ⟨?_, ?_, ?_⟩
  · intro h
    simp [execute_task, h]
  · intro task ht _ e hc
    subst hc
    cases htt : task.type <;>
      simp only [execute_task, ht, htt, exec_website, exec_presentation,
        exec_image, exec_api, exec_fullstack, exec_general, exec_fail] <;>
      (try rcases hui : aget "user_input" task.results with _ | v) <;>
      (try simp only [hui]) <;>
      exact ⟨by simp [aget_aset_self], _, rfl⟩
  · intro task ht hp t2 ht2 hs
    cases htt : task.type <;>
      cases hcol : collab <;>
      subst hcol <;>
      simp only [execute_task, ht, htt, exec_website, exec_presentation,
        exec_image, exec_api, exec_fullstack, exec_general, exec_fail,
        exec_ok, aget_aset_self, Option.some.injEq] at ht2 <;>
      first
      | (subst ht2; exact absurd rfl hs)
      | (subst ht2; exact hp)
      | (rcases hui : aget "user_input" task.results with _ | v <;>
          simp only [hui, exec_fail, exec_ok, aget_aset_self,
            Option.some.injEq] at ht2 <;>
          first
          | (subst ht2; exact absurd rfl hs)
          | (subst ht2; exact hp))

/-- Witness for C1: the re-run clause applied to the concrete COMPLETED
website task of the scenario, and the NotFound clause on the empty
registry. -/
theorem c1_witness :
    ((aget "t1" c1_second.1.active_tasks).map (fun t => t.status) =
      some .error ∧
     ∃ msg, c1_second = (c1_second.1, .err msg)) ∧
    execute_task ⟨[], []⟩ "t0" (.ok "x") 0 = (⟨[], []⟩, .err "Task not found") := by
  exact ⟨(c1_execute_rerun_and_progress c1_after_first "t1" (.error "boom") 2).2.1
      _ rfl (Or.inl rfl) "boom" rfl,
    (c1_execute_rerun_and_progress ⟨[], []⟩ "t0" (.ok "x") 0).1 rfl⟩

/-- The role rank written out as the spec states the order
(GUEST<USER<CREATOR<FOUNDER<MODERATOR<ADMIN); compared against the
list-index computation of the source in C5. -/
def roleRank : UserRole → Nat
  | .guest => 0
  | .user => 1
  | .creator => 2
  | .founder => 3
  | .moderator => 4
  | .admin => 5

/-- C5 scenario state: a GUEST and an ADMIN registered on the bootstrap
channel set. -/
def c5_state : ChatState :=
  (register_user
    (register_user initial_state "g1" "guest1" "Guest One" .guest 0).1
    "a1" "admin1" "Admin One" .admin 0).1

/-- C5: on a read-only channel, `send` permission holds exactly for roles
at least MODERATOR (a GUEST is denied, an ADMIN succeeds at the
`send_message` level), joining a read-only channel is allowed for every
role, joining a restricted channel succeeds exactly when the user's role
reaches the channel's required role, and the source's list-index role
comparison agrees with the order GUEST<USER<CREATOR<FOUNDER<MODERATOR<ADMIN. -/
theorem c5_permissions :
    (∀ r req : UserRole, has_role_or_higher r req = decide (roleRank req ≤ roleRank r)) ∧
    (∀ (u : ChatUser) (ch : Channel), ch.type = "read_only" →
      can_user_send_message u ch = decide (roleRank .moderator ≤ roleRank u.role)) ∧
    (∀ (u : ChatUser) (ch : Channel), ch.type = "read_only" →
      can_user_join_channel u ch = true) ∧
    (∀ (u : ChatUser) (ch : Channel), ch.type = "restricted" →
      can_user_join_channel u ch =
        decide (roleRank (ch.required_role.getD .user) ≤ roleRank u.role)) ∧
    (∀ (st : ChatState) (uid content mid : String) (now : Nat) (u : ChatUser)
       (ch : Channel),
      aget uid st.users = some u → aget "announcements" st.channels = some ch →
      ch.type = "read_only" →
      ((send_message st uid "announcements" content .text none mid now).2 =
          .err "Permission denied" ↔ roleRank u.role < roleRank .moderator)) ∧
    (send_message c5_state "g1" "announcements" "hi all" .text none "m1" 5).2 =
      .err "Permission denied" ∧
    (send_message c5_state "a1" "announcements" "hi all" .text none "m1" 5).2 =
      .sent "m1" 5 := by
  refine ⟨?_, ?_, ?_, ?_, ?_, by decide, by decide⟩
  · intro r req
    cases r <;> cases req <;> decide
  · intro u ch h
    have : can_user_send_message u ch = (u.role == .moderator || u.role == .admin) := by
      simp [can_user_send_message, h]
    rw [this]
    cases u.role <;> decide
  · intro u ch h
    simp [can_user_join_channel, h]
  · intro u ch h
    have : can_user_join_channel u ch =
        has_role_or_higher u.role (ch.required_role.getD .user) := by
      simp [can_user_join_channel, h]
    rw [this]
    cases u.role <;> cases ch.required_role.getD .user <;> decide
  · intro st uid content mid now u ch hu hch hro
    have hperm : can_user_send_message u ch = (u.role == .moderator || u.role == .admin) := by
      simp [can_user_send_message, hro]
    simp only [send_message, hu, hch, hperm]
    rcases hok : check_rate_limit_st st uid content now with ⟨st1, ok⟩
    cases hr : u.role <;> simp only [hok] <;> cases ok <;>
      constructor <;> intro hx <;>
      first
        | decide
        | rfl
        | exact absurd hx (by decide)
        | exact absurd hx (by simp)

/-- Witness for C5: the `send_message`-level equivalence applied to the
registered GUEST on the read-only announcements channel. -/
theorem c5_witness :
    ((send_message c5_state "g1" "announcements" "hey" .text none "m2" 9).2 =
      .err "Permission denied" ↔ roleRank UserRole.guest < roleRank .moderator) := by
  exact c5_permissions.2.2.2.2.1 c5_state "g1" "hey" "m2" 9 _ _ rfl rfl rfl

/-- A registered GUEST whose rate window holds one expired timestamp
(time 0) and five live ones (time 61), probed at time 120. -/
def c8_state : ChatState :=
  { users := [("u1", { user_id := "u1", username := "u1", display_name := "U",
                       role := .guest })],
    channels := [], messages := [],
    user_message_history := [("u1", [0, 61, 61, 61, 61, 61])] }

/-- C8 counterexample to the claim as stated: this call rejects (five live
timestamps reach the GUEST limit), yet the stored per-user window changes —
the expired timestamp 0 is pruned before the checks, so the state after
the rejecting call differs from the state before it. -/
theorem c8_counterexample :
    (check_rate_limit_st c8_state "u1" "hi" 120).2 = false ∧
    (check_rate_limit_st c8_state "u1" "hi" 120).1.user_message_history ≠
      c8_state.user_message_history := by
  constructor
  · rfl
  · decide

/-- A single `_check_rate_limit` evaluation either rejects with the pruned
window stored, or accepts with the pruned window plus the current
timestamp. -/
theorem check_rate_limit_cases (role : UserRole) (hist : List Nat)
    (content : String) (now : Nat) :
    check_rate_limit role hist content now =
      (hist.filter (fun t => now - t < 60), false) ∨
    check_rate_limit role hist content now =
      (hist.filter (fun t => now - t < 60) ++ [now], true) := by
  simp only [check_rate_limit]
  split
  · exact Or.inl rfl
  · split
    · exact Or.inl rfl
    · exact Or.inr rfl

/-- C8 (amended): a rejecting `_check_rate_limit` call records no
timestamp and touches nothing besides the caller's stored window, which
becomes the 60-unit-filtered version of itself (expired entries pruned):
every surviving entry was already present and the window cannot grow. -/
theorem c8_reject_frame (st : ChatState) (uid content : String) (now : Nat)
    (st2 : ChatState)
    (h : check_rate_limit_st st uid content now = (st2, false)) :
    st2.users = st.users ∧ st2.channels = st.channels ∧
    st2.messages = st.messages ∧
    (∀ v, v ≠ uid →
      aget v st2.user_message_history = aget v st.user_message_history) ∧
    (∀ u hist, aget uid st.users = some u →
      aget uid st.user_message_history = some hist →
      aget uid st2.user_message_history =
        some (hist.filter (fun t => now - t < 60)) ∧
      (∀ t ∈ hist.filter (fun t => now - t < 60), t ∈ hist) ∧
      (hist.filter (fun t => now - t < 60)).length ≤ hist.length) := by
  rcases hu : aget uid st.users with _ | u
  · simp only [check_rate_limit_st, hu, Prod.mk.injEq] at h
    refine ⟨h.1 ▸ rfl, h.1 ▸ rfl, h.1 ▸ rfl, fun v _ => h.1 ▸ rfl, ?_⟩
    intro u hist hcon
    exact absurd hcon (by simp [hu])
  · rcases check_rate_limit_cases u.role
      ((aget uid st.user_message_history).getD []) content now with hc | hc
    · simp only [check_rate_limit_st, hu, hc, Prod.mk.injEq] at h
      obtain ⟨h1, -⟩ := h
      subst h1
      refine ⟨rfl, rfl, rfl, fun v hv => aget_aset_of_ne hv _ _, ?_⟩
      intro u2 hist _ hh
      rw [hh]
      refine ⟨?_, fun t ht => List.mem_of_mem_filter ht,
        List.length_filter_le _ _⟩
      rw [aget_aset_self]
      simp
    · simp only [check_rate_limit_st, hu, hc, Prod.mk.injEq] at h
      exact absurd h.2 (by simp)

/-- Witness for C8: the rejecting call of the counterexample scenario,
with its pruned window. -/
theorem c8_witness :
    aget "u1" (check_rate_limit_st c8_state "u1" "hi" 120).1.user_message_history =
      some ([0, 61, 61, 61, 61, 61].filter (fun t => 120 - t < 60)) := by
  exact ((c8_reject_frame c8_state "u1" "hi" 120 _ rfl).2.2.2.2 _
    [0, 61, 61, 61, 61, 61] rfl rfl).1

/-- An accepting `_check_rate_limit` step: counts below the limit, message
within the character limit, no window entry expired. -/
theorem check_rate_limit_accept (role : UserRole) (hist : List Nat)
    (content : String) (now : Nat)
    (hc : content.length ≤ (rate_limits role).characters_per_message)
    (hcount : hist.length < (rate_limits role).messages_per_minute)
    (hkeep : ∀ x ∈ hist, now - x < 60) :
    check_rate_limit role hist content now = (hist ++ [now], true) := by
  have hf : hist.filter (fun t => decide (now - t < 60)) = hist :=
    List.filter_eq_self.mpr (fun a ha => by simpa using hkeep a ha)
  simp only [check_rate_limit, hf]
  rw [if_neg (by omega), if_neg (by omega)]

/-- A count-rejecting `_check_rate_limit` step. -/
theorem check_rate_limit_reject (role : UserRole) (hist : List Nat)
    (content : String) (now : Nat)
    (hcount : (rate_limits role).messages_per_minute ≤
      (hist.filter (fun t => now - t < 60)).length) :
    check_rate_limit role hist content now =
      (hist.filter (fun t => now - t < 60), false) := by
  simp only [check_rate_limit]
  rw [if_pos hcount]

/-- A run of in-window, under-the-limit calls accepts every one of them
and appends every timestamp. -/
theorem run_checks_accepts (role : UserRole) (content : String)
    (hc : content.length ≤ (rate_limits role).characters_per_message) :
    ∀ (ts hist : List Nat),
      hist.length + ts.length ≤ (rate_limits role).messages_per_minute →
      (∀ x ∈ hist ++ ts, ∀ y ∈ hist ++ ts, x - y < 60) →
      run_checks role content hist ts = (hist ++ ts, List.replicate ts.length true)
  | [], hist, _, _ => by simp [run_checks]
  | t :: ts, hist, hcount, hwin => by
    have ht : t ∈ hist ++ t :: ts := by simp
    have hacc : check_rate_limit role hist content t = (hist ++ [t], true) :=
      check_rate_limit_accept role hist content t hc (by simp at hcount; omega)
        (fun x hx => hwin t ht x (by simp [hx]))
    have hwin2 : ∀ x ∈ (hist ++ [t]) ++ ts, ∀ y ∈ (hist ++ [t]) ++ ts, x - y < 60 := by
      intro x hx y hy
      simp only [List.append_assoc, List.singleton_append] at hx hy
      exact hwin x hx y hy
    have ih := run_checks_accepts role content hc ts (hist ++ [t])
      (by simp at hcount ⊢; omega) hwin2
    simp only [run_checks, hacc, ih, List.append_assoc, List.singleton_append,
      List.replicate_succ, List.length_cons]

/-- `run_checks` over a concatenation: run the first batch, then the
second from the resulting window. -/
theorem run_checks_append (role : UserRole) (content : String) :
    ∀ (as : List Nat) (bs : List Nat) (hist : List Nat),
      run_checks role content hist (as ++ bs) =
        ((run_checks role content (run_checks role content hist as).1 bs).1,
         (run_checks role content hist as).2 ++
           (run_checks role content (run_checks role content hist as).1 bs).2)
  | [], bs, hist => by simp [run_checks]
  | a :: as, bs, hist => by
    simp only [List.cons_append, run_checks, List.append_eq]
    rw [run_checks_append role content as bs
      (check_rate_limit role hist content a).1]

/-- C2: for every role, with every message within the role's character
limit, `messagesPerMinute + 1` attempts whose timestamps all lie inside
one 60-unit window yield acceptance for the first `messagesPerMinute`
attempts and exactly one rejection (the last), leaving the first
`messagesPerMinute` timestamps recorded; once the window slides past the
earliest recorded timestamp the next attempt is accepted; and each call is
exactly prune-check-count-check-length-append. -/
theorem c2_rate_limiter (r : UserRole) (content : String)
    (hc : content.length ≤ (rate_limits r).characters_per_message)
    (times : List Nat)
    (hlen : times.length = (rate_limits r).messages_per_minute + 1)
    (hwin : ∀ x ∈ times, ∀ y ∈ times, x - y < 60) :
    run_checks r content [] times =
      (times.take (rate_limits r).messages_per_minute,
       List.replicate (rate_limits r).messages_per_minute true ++ [false]) ∧
    (∀ t2, (∃ t0 ∈ times.take (rate_limits r).messages_per_minute, 60 ≤ t2 - t0) →
       (check_rate_limit r (times.take (rate_limits r).messages_per_minute)
          content t2).2 = true) ∧
    (∀ hist now, check_rate_limit r hist content now =
       (let hist2 := hist.filter (fun t => now - t < 60)
        if (rate_limits r).messages_per_minute ≤ hist2.length then (hist2, false)
        else if (rate_limits r).characters_per_message < content.length then
          (hist2, false)
        else (hist2 ++ [now], true))) := by
  set n := (rate_limits r).messages_per_minute with hn
  have htake : (times.take n).length = n := by
    rw [List.length_take, hlen]; omega
  have hmemtake : ∀ x ∈ times.take n, x ∈ times := fun x hx => List.mem_of_mem_take hx
  refine ⟨?_, ?_, ?_⟩
  · obtain ⟨tl, hdrop⟩ : ∃ tl, times.drop n = [tl] := by
      apply List.length_eq_one.mp
      rw [List.length_drop, hlen]; omega
    have htl : tl ∈ times := List.mem_of_mem_drop (by rw [hdrop]; exact List.mem_singleton_self tl)
    have hsplit : times.take n ++ [tl] = times := by
      rw [← hdrop, List.take_append_drop]
    have hfirst : run_checks r content [] (times.take n) =
        (times.take n, List.replicate n true) := by
      have := run_checks_accepts r content hc (times.take n) []
        (by simp [htake])
        (by
          intro x hx y hy
          simp only [List.nil_append] at hx hy
          exact hwin x (hmemtake x hx) y (hmemtake y hy))
      simpa [htake] using this
    have hkeeplast : (times.take n).filter (fun t => tl - t < 60) = times.take n :=
      List.filter_eq_self.mpr (fun a ha => by
        simpa using hwin tl htl a (hmemtake a ha))
    have hlast : run_checks r content (times.take n) [tl] =
        (times.take n, [false]) := by
      have hrej := check_rate_limit_reject r (times.take n) content tl
        (by simp only [hkeeplast]; omega)
      simp only [run_checks, hrej, hkeeplast]
    calc run_checks r content [] times
        = run_checks r content [] (times.take n ++ [tl]) := by rw [hsplit]
      _ = (times.take n, List.replicate n true ++ [false]) := by
          rw [run_checks_append, hfirst, hlast]
  · rintro t2 ⟨t0, ht0, hslide⟩
    have hlt : ((times.take n).filter (fun t => t2 - t < 60)).length < n := by
      have := List.length_filter_lt_length_iff_exists
        (l := times.take n) (p := fun t => decide (t2 - t < 60))
      rw [htake] at this
      exact this.mpr ⟨t0, ht0, by simpa using hslide⟩
    simp only [check_rate_limit]
    rw [if_neg (by omega), if_neg (by omega)]
  · intro hist now
    rfl

/-- Witness for C2: a GUEST making six simultaneous sends — five accepted,
the sixth rejected — and accepted again once the window has slid past the
recorded timestamps. -/
theorem c2_witness :
    run_checks .guest "hi" [] [0, 0, 0, 0, 0, 0] =
      ([0, 0, 0, 0, 0, 0].take (rate_limits .guest).messages_per_minute,
       List.replicate (rate_limits .guest).messages_per_minute true ++ [false]) ∧
    (check_rate_limit .guest
      ([0, 0, 0, 0, 0, 0].take (rate_limits .guest).messages_per_minute)
      "hi" 60).2 = true := by
  have h := c2_rate_limiter .guest "hi" (by decide) [0, 0, 0, 0, 0, 0] rfl (by decide)
  exact ⟨h.1, h.2.1 60 ⟨0, by decide, by decide⟩⟩

/-- The message-cap slice keeps at most `n` entries. -/
theorem lastN_length_le {α : Type} (n : Nat) (l : List α) :
    (lastN n l).length ≤ n := by
  simp only [lastN, List.length_drop]
  omega

/-- On a short list the message-cap slice is the identity. -/
theorem lastN_of_le {α : Type} {n : Nat} {l : List α} (h : l.length ≤ n) :
    lastN n l = l := by
  simp only [lastN, Nat.sub_eq_zero_of_le h, List.drop_zero]

/-- Re-slicing after appending more messages is the same as slicing the
full history once. -/
theorem lastN_append_lastN {α : Type} (n : Nat) (l l2 : List α) :
    lastN n (lastN n l ++ l2) = lastN n (l ++ l2) := by
  simp only [lastN, List.length_append, List.length_drop,
    List.drop_append_eq_append_drop, List.drop_drop]
  congr 1
  · congr 1
    omega
  · congr 1
    omega

/-- The Python `[-N:]` truncation step of `send_message` always equals the
plain last-`N` slice. -/
theorem cap_eq_lastN (msgs : List ChatMessage) :
    (if max_messages_per_channel < msgs.length then
      lastN max_messages_per_channel msgs else msgs) =
    lastN max_messages_per_channel msgs := by
  split
  · rfl
  · exact (lastN_of_le (by omega)).symm

/-- `_check_rate_limit` never touches the message store. -/
theorem check_rate_limit_st_messages (st : ChatState) (uid content : String)
    (now : Nat) :
    (check_rate_limit_st st uid content now).1.messages = st.messages := by
  rcases h : aget uid st.users with _ | u
  · simp [check_rate_limit_st, h]
  · simp [check_rate_limit_st, h]

/-- A successful `send_message` stores, under the target channel, the old
list plus the new message, truncated to the last
`max_messages_per_channel` entries. -/
theorem send_message_sent (st : ChatState) (uid cid content : String)
    (mt : MessageType) (rt : Option String) (mid : String) (now : Nat)
    (st2 : ChatState) (a : String) (b : Nat)
    (h : send_message st uid cid content mt rt mid now = (st2, .sent a b)) :
    ∃ u, aget uid st.users = some u ∧
      aget cid st2.messages = some (lastN max_messages_per_channel
        ((aget cid st.messages).getD [] ++
          [{ message_id := mid, user_id := uid, username := u.username,
             content := content, message_type := mt, channel_id := cid,
             timestamp := now, reply_to := rt, reactions := some [],
             attachments := some [] }])) := by
  rcases hu : aget uid st.users with _ | u
  · rw [send_message, hu] at h
    exact absurd h (by simp)
  · refine ⟨u, rfl, ?_⟩
    rw [send_message, hu] at h
    rcases hch : aget cid st.channels with _ | ch
    · rw [hch] at h
      exact absurd h (by simp)
    · rw [hch] at h
      cases hp : can_user_send_message u ch
      · simp [hp] at h
      · rcases hok : check_rate_limit_st st uid content now with ⟨st1, ok⟩
        rw [hok] at h
        cases ok
        · simp [hp] at h
        · simp only [hp, Bool.not_true, Bool.false_eq_true, if_false,
            Bool.not_false, if_true, Prod.mk.injEq] at h
          obtain ⟨h1, -⟩ := h
          subst h1
          have hm : st1.messages = st.messages :=
            congrArg ChatState.messages (congrArg Prod.fst hok) ▸
              check_rate_limit_st_messages st uid content now
          rw [show ({ st1 with
              messages := aset cid _ st1.messages,
              users := aset uid _ st1.users,
              channels := aset cid _ st1.channels } : ChatState).messages =
            aset cid _ st1.messages from rfl]
          rw [aget_aset_self, hm, cap_eq_lastN]

/-- C6: starting from a channel within the cap, any sequence of successful
sends leaves exactly the last `max_messages_per_channel` of old-plus-new
messages (FIFO truncation), in particular at most 1000 stored; 1001 sends
into an empty channel leave exactly the most recent 1000 with the first
(oldest) dropped. -/
theorem c6_fifo_cap (cid : String) :
    ∀ (calls : List SendCall) (st st2 : ChatState),
      ((aget cid st.messages).getD []).length ≤ max_messages_per_channel →
      run_sends st cid calls = (st2, true) →
      ∃ new : List ChatMessage,
        new.length = calls.length ∧
        new.map (fun m => m.content) = calls.map (fun c => c.content) ∧
        new.map (fun m => m.message_id) = calls.map (fun c => c.mid) ∧
        (aget cid st2.messages).getD [] =
          lastN max_messages_per_channel ((aget cid st.messages).getD [] ++ new) ∧
        ((aget cid st2.messages).getD []).length ≤ max_messages_per_channel ∧
        (calls.length = max_messages_per_channel + 1 →
          (aget cid st.messages).getD [] = [] →
          (aget cid st2.messages).getD [] = new.drop 1)
  | [], st, st2, hinit, h => by
    simp only [run_sends, Prod.mk.injEq] at h
    obtain ⟨h1, -⟩ := h
    subst h1
    refine ⟨[], rfl, rfl, rfl, ?_, hinit, ?_⟩
    · rw [List.append_nil, lastN_of_le hinit]
    · intro _ hnil
      rw [hnil]
      rfl
  | c :: cs, st, st2, hinit, h => by
    rcases hs : send_message st c.user_id cid c.content c.message_type
        c.reply_to c.mid c.now with ⟨st1, out⟩
    cases out with
    | err msg =>
      simp only [run_sends, hs] at h
      simp at h
    | sent a b =>
      simp only [run_sends, hs] at h
      obtain ⟨u, -, hmsgs1⟩ := send_message_sent st c.user_id cid c.content
        c.message_type c.reply_to c.mid c.now st1 a b hs
      have hinit1 : ((aget cid st1.messages).getD []).length ≤
          max_messages_per_channel := by
        rw [hmsgs1]
        simpa using lastN_length_le max_messages_per_channel _
      obtain ⟨new1, hlen1, hcont1, hmid1, heq1, hle1, -⟩ :=
        c6_fifo_cap cid cs st1 st2 hinit1 h
      refine ⟨⟨c.mid, c.user_id, u.username, c.content, c.message_type, cid,
          c.now, none, c.reply_to, some [], some []⟩ :: new1,
        by simp [hlen1], by simp [hcont1], by simp [hmid1], ?_, hle1, ?_⟩
      · rw [heq1, hmsgs1]
        simp only [Option.getD_some]
        rw [lastN_append_lastN, List.append_assoc, List.singleton_append]
      · intro hc hnil
        rw [heq1, hmsgs1]
        simp only [Option.getD_some]
        rw [lastN_append_lastN, List.append_assoc, List.singleton_append, hnil,
          List.nil_append]
        have hcs : cs.length = max_messages_per_channel := by
          simpa using hc
        have hdrop1 : (⟨c.mid, c.user_id, u.username, c.content,
            c.message_type, cid, c.now, none, c.reply_to, some [],
            some []⟩ :: new1 : List ChatMessage).length -
            max_messages_per_channel = 1 := by
          simp only [List.length_cons, hlen1, hcs]
          omega
        simp only [lastN, hdrop1]

/-- The call of the C6 witness: one message by the registered admin into
the bootstrap `general` channel. -/
def c6w_call : SendCall := ⟨"a1", "hello", .text, none, "m1", 3⟩

/-- Witness for C6: a single successful send into the empty bootstrap
`general` channel. -/
theorem c6_witness :
    ∃ new : List ChatMessage,
      new.length = ([c6w_call] : List SendCall).length ∧
      new.map (fun m => m.content) = [c6w_call].map (fun c => c.content) ∧
      new.map (fun m => m.message_id) = [c6w_call].map (fun c => c.mid) ∧
      (aget "general" (run_sends c5_state "general" [c6w_call]).1.messages).getD [] =
        lastN max_messages_per_channel
          ((aget "general" c5_state.messages).getD [] ++ new) ∧
      ((aget "general" (run_sends c5_state "general" [c6w_call]).1.messages).getD []).length ≤
        max_messages_per_channel ∧
      (([c6w_call] : List SendCall).length = max_messages_per_channel + 1 →
        (aget "general" c5_state.messages).getD [] = [] →
        (aget "general" (run_sends c5_state "general" [c6w_call]).1.messages).getD [] =
          new.drop 1) := by
  exact c6_fifo_cap "general" [c6w_call] c5_state _ (by decide) rfl

/-- `react_upd` never changes the message id. -/
theorem react_upd_message_id (u e : String) (m : ChatMessage) :
    (react_upd u e m).message_id = m.message_id := by
  simp only [react_upd]
  split <;> split <;> rfl

/-- Re-reacting with the same user and emoji is a no-op on the message
(set semantics). -/
theorem react_upd_idem (u e : String) (m : ChatMessage) :
    react_upd u e (react_upd u e m) = react_upd u e m := by
  rcases hget : aget e (m.reactions.getD []) with _ | lst0
  · simp [react_upd, hget, aget_aset_self]
  · by_cases hmem : u ∈ lst0
    · simp [react_upd, hget, hmem]
    · simp [react_upd, hget, hmem, aget_aset_self]

/-- The reaction list for the emoji after `react_upd`: unchanged when the
user already reacted, the user appended once otherwise. -/
theorem react_upd_reactions (u e : String) (m : ChatMessage) :
    (aget e ((react_upd u e m).reactions.getD [])).getD [] =
      (if u ∈ (aget e (m.reactions.getD [])).getD []
       then (aget e (m.reactions.getD [])).getD []
       else (aget e (m.reactions.getD [])).getD [] ++ [u]) := by
  rcases hget : aget e (m.reactions.getD []) with _ | lst0
  · simp [react_upd, hget, aget_aset_self]
  · by_cases hmem : u ∈ lst0
    · simp [react_upd, hget, hmem]
    · simp [react_upd, hget, hmem, aget_aset_self]

/-- `upd_in_list` finds a message exactly when `find_in_list` does. -/
theorem upd_in_list_none_iff (mid : String) (f : ChatMessage → ChatMessage) :
    ∀ ms : List ChatMessage,
      upd_in_list mid f ms = none ↔ find_in_list mid ms = none
  | [] => by simp [upd_in_list, find_in_list]
  | m :: ms => by
    by_cases hm : m.message_id == mid
    · simp [upd_in_list, find_in_list, hm]
    · rcases hrec : upd_in_list mid f ms with _ | ms2 <;>
        simp [upd_in_list, find_in_list, hm, hrec,
          ← upd_in_list_none_iff mid f ms]

/-- A successful update implies the message is findable. -/
theorem upd_in_list_some_find (mid : String) (f : ChatMessage → ChatMessage)
    (ms ms2 : List ChatMessage) (hin : upd_in_list mid f ms = some ms2) :
    ∃ m, find_in_list mid ms = some m := by
  rcases hf : find_in_list mid ms with _ | m
  · rw [(upd_in_list_none_iff mid f ms).mpr hf] at hin
    exact Option.noConfusion hin
  · exact ⟨m, rfl⟩

/-- Updating the first matching message in a channel list: the update is
applied to exactly the message `find_in_list` returns, and that message
can be found again afterwards (provided `f` keeps the id). -/
theorem upd_in_list_found (mid : String) (f : ChatMessage → ChatMessage)
    (hid : ∀ x, (f x).message_id = x.message_id) :
    ∀ (ms : List ChatMessage) (m : ChatMessage),
      find_in_list mid ms = some m →
      ∃ ms2, upd_in_list mid f ms = some ms2 ∧
        find_in_list mid ms2 = some (f m)
  | [], m, h => by simp [find_in_list] at h
  | m0 :: ms, m, h => by
    by_cases hm : m0.message_id == mid
    · rw [find_in_list, if_pos hm] at h
      have hm0 : m0 = m := by simpa using h
      subst hm0
      refine ⟨f m0 :: ms, by simp [upd_in_list, hm], ?_⟩
      simp [find_in_list, hid m0, (by simpa using hm : m0.message_id = mid)]
    · rw [find_in_list, if_neg hm] at h
      obtain ⟨ms2, hu, hf⟩ := upd_in_list_found mid f hid ms m h
      exact ⟨m0 :: ms2, by simp [upd_in_list, hm, hu],
        by simp [find_in_list, hm, hf]⟩

/-- Updating twice composes (provided the first update keeps the id). -/
theorem upd_in_list_comp (mid : String) (f g : ChatMessage → ChatMessage)
    (hid : ∀ x, (f x).message_id = x.message_id) :
    ∀ (ms ms2 : List ChatMessage),
      upd_in_list mid f ms = some ms2 →
      upd_in_list mid g ms2 = upd_in_list mid (fun x => g (f x)) ms
  | [], ms2, h => by simp [upd_in_list] at h
  | m0 :: ms, ms2, h => by
    by_cases hm : m0.message_id == mid
    · rw [upd_in_list, if_pos hm] at h
      have hms2 : f m0 :: ms = ms2 := by simpa using h
      subst hms2
      simp [upd_in_list, hm, hid m0, (by simpa using hm : m0.message_id = mid)]
    · rw [upd_in_list, if_neg hm] at h
      rcases hrec : upd_in_list mid f ms with _ | ms3
      · rw [hrec] at h
        simp at h
      · rw [hrec] at h
        have hms2 : m0 :: ms3 = ms2 := by simpa using h
        subst hms2
        simp [upd_in_list, hm, upd_in_list_comp mid f g hid ms ms3 hrec]

/-- `upd_message` finds a message exactly when `find_across` does. -/
theorem upd_message_none_iff (mid : String) (f : ChatMessage → ChatMessage) :
    ∀ table : List (String × List ChatMessage),
      upd_message mid f table = none ↔ find_across mid table = none
  | [] => by simp [upd_message, find_across]
  | (cid, ms) :: rest => by
    rcases hin : upd_in_list mid f ms with _ | ms2
    · have hfin : find_in_list mid ms = none := (upd_in_list_none_iff mid f ms).mp hin
      rcases hrec : upd_message mid f rest with _ | rest2 <;>
        simp [upd_message, find_across, hin, hfin, hrec,
          ← upd_message_none_iff mid f rest]
    · obtain ⟨m, hfin2⟩ := upd_in_list_some_find mid f ms ms2 hin
      simp [upd_message, find_across, hin, hfin2]

/-- Lifting `upd_in_list_found` to the whole channel table. -/
theorem upd_message_found (mid : String) (f : ChatMessage → ChatMessage)
    (hid : ∀ x, (f x).message_id = x.message_id) :
    ∀ (table : List (String × List ChatMessage)) (m : ChatMessage),
      find_across mid table = some m →
      ∃ table2, upd_message mid f table = some table2 ∧
        find_across mid table2 = some (f m)
  | [], m, h => by simp [find_across] at h
  | (cid, ms) :: rest, m, h => by
    rcases hfin : find_in_list mid ms with _ | m0
    · simp only [find_across, hfin] at h
      obtain ⟨rest2, hu, hf⟩ := upd_message_found mid f hid rest m h
      have hin : upd_in_list mid f ms = none := (upd_in_list_none_iff mid f ms).mpr hfin
      exact ⟨(cid, ms) :: rest2, by simp [upd_message, hin, hu],
        by simp [find_across, hfin, hf]⟩
    · simp only [find_across, hfin, Option.some.injEq] at h
      subst h
      obtain ⟨ms2, hu, hf⟩ := upd_in_list_found mid f hid ms m0 hfin
      exact ⟨(cid, ms2) :: rest, by simp [upd_message, hu],
        by simp [find_across, hf]⟩

/-- Lifting `upd_in_list_comp` to the whole channel table. -/
theorem upd_message_comp (mid : String) (f g : ChatMessage → ChatMessage)
    (hid : ∀ x, (f x).message_id = x.message_id) :
    ∀ (table table2 : List (String × List ChatMessage)),
      upd_message mid f table = some table2 →
      upd_message mid g table2 = upd_message mid (fun x => g (f x)) table
  | [], table2, h => by simp [upd_message] at h
  | (cid, ms) :: rest, table2, h => by
    rcases hin : upd_in_list mid f ms with _ | ms2
    · simp only [upd_message, hin] at h
      have hfin : find_in_list mid ms = none := (upd_in_list_none_iff mid f ms).mp hin
      have hing : upd_in_list mid g ms = none :=
        (upd_in_list_none_iff mid g ms).mpr hfin
      have hingf : upd_in_list mid (fun x => g (f x)) ms = none :=
        (upd_in_list_none_iff mid _ ms).mpr hfin
      rcases hrec : upd_message mid f rest with _ | rest2
      · rw [hrec] at h
        simp at h
      · rw [hrec] at h
        have ht2 : (cid, ms) :: rest2 = table2 := by simpa using h
        subst ht2
        simp [upd_message, hing, hingf,
          upd_message_comp mid f g hid rest rest2 hrec]
    · simp only [upd_message, hin] at h
      have ht2 : (cid, ms2) :: rest = table2 := by simpa using h
      subst ht2
      obtain ⟨m0, hf0⟩ := upd_in_list_some_find mid f ms ms2 hin
      rcases hgf : upd_in_list mid (fun x => g (f x)) ms with _ | ms4
      · rw [(upd_in_list_none_iff mid _ ms).mp hgf] at hf0
        exact Option.noConfusion hf0
      · simp [upd_message, upd_in_list_comp mid f g hid ms ms2 hin, hgf]

/-- C7: `add_reaction` fails NotFound on an unknown message id (state
untouched), and otherwise idempotently adds the user to the emoji's id
set: the user ends up in the list, re-reacting changes nothing (set
semantics), a fresh reaction appends the user exactly once, and the
second identical call is a complete no-op returning the same success. -/
theorem c7_react_idempotent (st : ChatState) (u mid e : String) :
    (find_message st mid = none →
      add_reaction st u mid e = (st, .err "Message not found")) ∧
    (∀ m, find_message st mid = some m →
      ∃ st2, add_reaction st u mid e = (st2, .added mid e) ∧
        find_message st2 mid = some (react_upd u e m) ∧
        u ∈ (aget e ((react_upd u e m).reactions.getD [])).getD [] ∧
        (u ∈ (aget e (m.reactions.getD [])).getD [] →
          (aget e ((react_upd u e m).reactions.getD [])).getD [] =
            (aget e (m.reactions.getD [])).getD []) ∧
        (u ∉ (aget e (m.reactions.getD [])).getD [] →
          (aget e ((react_upd u e m).reactions.getD [])).getD [] =
            (aget e (m.reactions.getD [])).getD [] ++ [u]) ∧
        add_reaction st2 u mid e = (st2, .added mid e)) := by
  constructor
  · intro h
    have hnone : upd_message mid (react_upd u e) st.messages = none :=
      (upd_message_none_iff mid _ st.messages).mpr h
    simp [add_reaction, hnone]
  · intro m hm
    obtain ⟨table2, hu2, hf2⟩ := upd_message_found mid (react_upd u e)
      (react_upd_message_id u e) st.messages m hm
    refine ⟨{ st with messages := table2 }, by simp [add_reaction, hu2],
      hf2, ?_, ?_, ?_, ?_⟩
    · rw [react_upd_reactions]
      split
      · assumption
      · simp
    · intro hmem
      rw [react_upd_reactions, if_pos hmem]
    · intro hmem
      rw [react_upd_reactions, if_neg hmem]
    · have hcomp := upd_message_comp mid (react_upd u e) (react_upd u e)
        (react_upd_message_id u e) st.messages table2 hu2
      have hfun : (fun x => react_upd u e (react_upd u e x)) = react_upd u e :=
        funext (react_upd_idem u e)
      rw [hfun] at hcomp
      rw [hu2] at hcomp
      simp [add_reaction, hcomp]

/-- The stored message of the C7 witness scenario. -/
def c7_msg : ChatMessage :=
  ⟨"m1", "u1", "u1", "hi", .text, "general", 1, none, none, some [], some []⟩

/-- The state of the C7 witness scenario. -/
def c7_state : ChatState :=
  { users := [], channels := [], messages := [("general", [c7_msg])],
    user_message_history := [] }

/-- Witness for C7: reacting on a concrete stored message. -/
theorem c7_witness :
    ∃ st2, add_reaction c7_state "u9" "m1" "+1" = (st2, .added "m1" "+1") ∧
      find_message st2 "m1" = some (react_upd "u9" "+1" c7_msg) ∧
      "u9" ∈ (aget "+1" ((react_upd "u9" "+1" c7_msg).reactions.getD [])).getD [] ∧
      ("u9" ∈ (aget "+1" (c7_msg.reactions.getD [])).getD [] →
        (aget "+1" ((react_upd "u9" "+1" c7_msg).reactions.getD [])).getD [] =
          (aget "+1" (c7_msg.reactions.getD [])).getD []) ∧
      ("u9" ∉ (aget "+1" (c7_msg.reactions.getD [])).getD [] →
        (aget "+1" ((react_upd "u9" "+1" c7_msg).reactions.getD [])).getD [] =
          (aget "+1" (c7_msg.reactions.getD [])).getD [] ++ ["u9"]) ∧
      add_reaction st2 "u9" "m1" "+1" = (st2, .added "m1" "+1") :=
  (c7_react_idempotent c7_state "u9" "m1" "+1").2 c7_msg rfl

/-- Overwriting the same key twice equals writing the last value once. -/
theorem aset_aset_eq {α : Type} (k : String) (v w : α) :
    ∀ l : List (String × α), aset k v (aset k w l) = aset k v l
  | [] => by simp [aset]
  | (k2, v2) :: rest => by
    by_cases h : k2 == k <;> simp [aset, h, aset_aset_eq k v w rest]

/-- `_process_chat_mode`, written out. -/
theorem process_chat_mode_spec (st : CMState) (s : Session) (c : Collab)
    (now : Nat) (msg : String) :
    process_chat_mode st s c now msg =
      ({ st with active_sessions := (aset s.session_id
          ({ s with context := s.context ++
              [{ role := "assistant", content := generate_chat_response c.chat_llm,
                 timestamp := now, mode := "chat" }] }) st.active_sessions) },
       .chatR s.session_id (generate_chat_response c.chat_llm)
         (generate_suggestions msg) now none) := rfl

/-- The workspace-ensuring step only (possibly) sets `workspace_id`. -/
theorem ensure_workspace_spec (s : Session) (c : Collab) :
    (ensure_workspace s c).session_id = s.session_id ∧
    (ensure_workspace s c).mode = s.mode ∧
    (ensure_workspace s c).created_at = s.created_at ∧
    (ensure_workspace s c).message_count = s.message_count ∧
    (ensure_workspace s c).context = s.context ∧
    (ensure_workspace s c).task_history = s.task_history ∧
    (ensure_workspace s c).workspace_id =
      some (s.workspace_id.getD c.fresh_workspace_id) ∧
    (ensure_workspace s c).preferences = s.preferences := by
  rcases hws : s.workspace_id with _ | w <;> simp [ensure_workspace, hws]

/-- `create_task` written out, when the classification parses. -/
theorem create_task_ok (st : AIState) (ui : String) (llm : Option Analysis)
    (tid : String) (now : Nat) (ty : TaskType)
    (hty : TaskType.ofString (analyze_intent ui llm).task_type = some ty) :
    create_task st ui llm tid now = .ok
      ({ st with active_tasks := (aset tid
          ({ id := tid, type := ty,
             description := (analyze_intent ui llm).description,
             status := .planning, progress := 0,
             steps := (analyze_intent ui llm).steps, current_step := 0,
             results := [("analysis", .analysisVal (analyze_intent ui llm)),
                         ("user_input", .str ui)],
             created_at := now, updated_at := now }) st.active_tasks) }, tid) := by
  simp only [create_task, hty]

/-- `_process_agent_mode` written out, when the classification parses. -/
theorem process_agent_mode_eq (st : CMState) (s : Session) (c : Collab)
    (now : Nat) (msg : String) (ty : TaskType)
    (hty : TaskType.ofString (analyze_intent msg c.classifier).task_type = some ty) :
    process_agent_mode st s c now msg = .ok
      ({ active_sessions := (aset s.session_id
          ({ ensure_workspace s c with
             context := (ensure_workspace s c).context ++
               [{ role := "assistant",
                  content := generate_agent_response c.exec_result,
                  timestamp := now, mode := "agent",
                  execution_result := some c.exec_result,
                  task_id := some c.fresh_task_id }],
             task_history := (ensure_workspace s c).task_history ++
               [⟨c.fresh_task_id, msg, c.exec_result, now⟩] })
          st.active_sessions),
         ai := { st.ai with active_tasks := (aset c.fresh_task_id
            ({ id := c.fresh_task_id, type := ty,
               description := (analyze_intent msg c.classifier).description,
               status := .planning, progress := 0,
               steps := (analyze_intent msg c.classifier).steps, current_step := 0,
               results := [("analysis", .analysisVal (analyze_intent msg c.classifier)),
                           ("user_input", .str msg)],
               created_at := now, updated_at := now }) st.ai.active_tasks) } },
       .agentR s.session_id (generate_agent_response c.exec_result) c.exec_result
         c.fresh_task_id ((ensure_workspace s c).workspace_id.getD c.fresh_workspace_id)
         s.preferences.show_code now none) := by
  simp only [process_agent_mode,
    create_task_ok st.ai msg c.classifier c.fresh_task_id now ty hty]

/-- `ChatMode("agent")`. -/
theorem ofString_agent : ChatMode.ofString "agent" = some .agent := rfl

/-- `ChatMode("chat")`. -/
theorem ofString_chat : ChatMode.ofString "chat" = some .chat := rfl

/-- The keyword fallback only ever recommends `"agent"` or `"chat"`, both
of which parse as modes. -/
theorem fallback_mode_parses (msg : String) :
    (ChatMode.ofString (analyze_message_intent msg none).recommended_mode).isSome := by
  simp only [analyze_message_intent]
  split <;> rfl

/-- The low-confidence branch of `_process_adaptive_mode`: dispatch as
chat, flag `clarification_needed`, leave the stored mode alone. -/
theorem process_adaptive_low (st : CMState) (s : Session) (c : Collab)
    (now : Nat) (msg : String)
    (hconf : ¬ ((0.7 : ℚ) < (analyze_message_intent msg c.intent_llm).confidence)) :
    process_adaptive_mode st s c now msg = .ok
      ({ st with active_sessions := (aset s.session_id
          ({ s with context := s.context ++
              [{ role := "assistant", content := generate_chat_response c.chat_llm,
                 timestamp := now, mode := "chat" }] }) st.active_sessions) },
       .chatR s.session_id (generate_chat_response c.chat_llm)
         (generate_suggestions msg) now
         (some { detected_intent := (analyze_message_intent msg c.intent_llm).intent,
                 recommended_mode := (analyze_message_intent msg c.intent_llm).recommended_mode,
                 confidence := (analyze_message_intent msg c.intent_llm).confidence,
                 reasoning := (analyze_message_intent msg c.intent_llm).reasoning,
                 mode_switched := false, clarification_needed := true })) := by
  simp only [process_adaptive_mode, if_neg hconf, process_chat_mode_spec, addAdaptive]

/-- The high-confidence agent branch of `_process_adaptive_mode`: the
stored mode switches to AGENT and the message is dispatched as agent. -/
theorem process_adaptive_high_agent (st : CMState) (s : Session) (c : Collab)
    (now : Nat) (msg : String) (ty : TaskType)
    (hconf : (0.7 : ℚ) < (analyze_message_intent msg c.intent_llm).confidence)
    (hrec : (analyze_message_intent msg c.intent_llm).recommended_mode = "agent")
    (hty : TaskType.ofString (analyze_intent msg c.classifier).task_type = some ty) :
    process_adaptive_mode st s c now msg = .ok
      ({ active_sessions := (aset s.session_id
          ({ ensure_workspace { s with mode := .agent } c with
             context := (ensure_workspace { s with mode := .agent } c).context ++
               [{ role := "assistant",
                  content := generate_agent_response c.exec_result,
                  timestamp := now, mode := "agent",
                  execution_result := some c.exec_result,
                  task_id := some c.fresh_task_id }],
             task_history := (ensure_workspace { s with mode := .agent } c).task_history ++
               [⟨c.fresh_task_id, msg, c.exec_result, now⟩] })
          st.active_sessions),
         ai := { st.ai with active_tasks := (aset c.fresh_task_id
            ({ id := c.fresh_task_id, type := ty,
               description := (analyze_intent msg c.classifier).description,
               status := .planning, progress := 0,
               steps := (analyze_intent msg c.classifier).steps, current_step := 0,
               results := [("analysis", .analysisVal (analyze_intent msg c.classifier)),
                           ("user_input", .str msg)],
               created_at := now, updated_at := now }) st.ai.active_tasks) } },
       .agentR s.session_id (generate_agent_response c.exec_result) c.exec_result
         c.fresh_task_id
         ((ensure_workspace { s with mode := .agent } c).workspace_id.getD
           c.fresh_workspace_id)
         s.preferences.show_code now
         (some { detected_intent := (analyze_message_intent msg c.intent_llm).intent,
                 recommended_mode := (analyze_message_intent msg c.intent_llm).recommended_mode,
                 confidence := (analyze_message_intent msg c.intent_llm).confidence,
                 reasoning := (analyze_message_intent msg c.intent_llm).reasoning,
                 mode_switched := true, clarification_needed := false })) := by
  simp only [process_adaptive_mode, if_pos hconf, hrec, ofString_agent,
    beq_self_eq_true, if_true,
    process_agent_mode_eq st { s with mode := ChatMode.agent } c now msg ty hty,
    addAdaptive]

/-- The high-confidence non-agent branch of `_process_adaptive_mode`: the
stored mode switches to the recommendation and the message is dispatched
as chat. -/
theorem process_adaptive_high_other (st : CMState) (s : Session) (c : Collab)
    (now : Nat) (msg : String) (m : ChatMode)
    (hconf : (0.7 : ℚ) < (analyze_message_intent msg c.intent_llm).confidence)
    (hof : ChatMode.ofString (analyze_message_intent msg c.intent_llm).recommended_mode =
      some m)
    (hne : ((analyze_message_intent msg c.intent_llm).recommended_mode == "agent") = false) :
    process_adaptive_mode st s c now msg = .ok
      ({ st with active_sessions := (aset s.session_id
          ({ s with mode := m, context := s.context ++
              [{ role := "assistant", content := generate_chat_response c.chat_llm,
                 timestamp := now, mode := "chat" }] }) st.active_sessions) },
       .chatR s.session_id (generate_chat_response c.chat_llm)
         (generate_suggestions msg) now
         (some { detected_intent := (analyze_message_intent msg c.intent_llm).intent,
                 recommended_mode := (analyze_message_intent msg c.intent_llm).recommended_mode,
                 confidence := (analyze_message_intent msg c.intent_llm).confidence,
                 reasoning := (analyze_message_intent msg c.intent_llm).reasoning,
                 mode_switched := true, clarification_needed := false })) := by
  simp only [process_adaptive_mode, if_pos hconf, hof, hne, Bool.false_eq_true,
    if_false, process_chat_mode_spec, addAdaptive]

/-- The session that `process_message` creates for an unknown id, before
the message is processed. -/
def fresh_session0 (mode : Option ChatMode) (c : Collab) (now : Nat) : Session :=
  { session_id := c.fresh_session_id, user_id := none,
    mode := mode.getD .adaptive, created_at := now, last_activity := now,
    message_count := 0, context := [], workspace_id := none,
    task_history := [], preferences := {} }

/-- That session after the bookkeeping at the top of `process_message`
(activity bump, mode override, user context entry). -/
def fresh_session_after_msg (msg : String) (mode : Option ChatMode)
    (c : Collab) (now : Nat) : Session :=
  { session_id := c.fresh_session_id, user_id := none,
    mode := mode.getD .adaptive, created_at := now, last_activity := now,
    message_count := 1,
    context := [{ role := "user", content := msg, timestamp := now,
                  mode := (mode.getD ChatMode.adaptive).toStr }],
    workspace_id := none, task_history := [], preferences := {} }

/-- The registry as `process_message` has written it right before
dispatching, for an unknown incoming id. -/
def fresh_front_state (st : CMState) (msg : String) (mode : Option ChatMode)
    (c : Collab) (now : Nat) : CMState :=
  { st with active_sessions := (aset c.fresh_session_id
      (fresh_session_after_msg msg mode c now)
      (aset c.fresh_session_id (fresh_session0 mode c now)
        st.active_sessions)) }

/-- `process_message` on an unknown session id: a fresh session is
silently created and the message dispatched in it. -/
theorem process_message_fresh (st : CMState) (sid msg : String)
    (mode : Option ChatMode) (c : Collab) (now : Nat)
    (h1 : aget sid st.active_sessions = none) :
    process_message st sid msg mode c now =
      (match mode.getD .adaptive with
       | .adaptive => process_adaptive_mode (fresh_front_state st msg mode c now)
           (fresh_session_after_msg msg mode c now) c now msg
       | .agent => process_agent_mode (fresh_front_state st msg mode c now)
           (fresh_session_after_msg msg mode c now) c now msg
       | .chat => .ok (process_chat_mode (fresh_front_state st msg mode c now)
           (fresh_session_after_msg msg mode c now) c now msg)
       | .custom => .ok (process_chat_mode (fresh_front_state st msg mode c now)
           (fresh_session_after_msg msg mode c now) c now msg)) := by
  rcases mode with _ | m
  · simp only [process_message, h1, create_chat_session]
    rw [aget_aset_self]
    rfl
  · simp only [process_message, h1, create_chat_session]
    rw [aget_aset_self]
    rcases m <;> rfl

/-- The stored session after the bookkeeping at the top of
`process_message`, for a known id. -/
def known_session_after_msg (s : Session) (msg : String)
    (mode : Option ChatMode) (now : Nat) : Session :=
  { s with
    last_activity := now,
    message_count := s.message_count + 1,
    mode := mode.getD s.mode,
    context := s.context ++
      [{ role := "user", content := msg, timestamp := now,
         mode := (mode.getD s.mode).toStr }] }

/-- `process_message` on a known session id: bookkeeping, then dispatch on
the (possibly overridden) current mode. -/
theorem process_message_known (st : CMState) (sid msg : String)
    (mode : Option ChatMode) (c : Collab) (now : Nat) (s : Session)
    (h : aget sid st.active_sessions = some s) :
    process_message st sid msg mode c now =
      (let s3 := known_session_after_msg s msg mode now
       let st1 : CMState := { st with active_sessions := aset sid s3 st.active_sessions }
       match mode.getD s.mode with
       | .adaptive => process_adaptive_mode st1 s3 c now msg
       | .agent => process_agent_mode st1 s3 c now msg
       | .chat => .ok (process_chat_mode st1 s3 c now msg)
       | .custom => .ok (process_chat_mode st1 s3 c now msg)) := by
  rcases mode with _ | m
  · simp only [process_message, h, known_session_after_msg, Option.getD_none]
  · simp only [process_message, h, known_session_after_msg, Option.getD_some]

/-- Adaptive dispatch always succeeds and keeps the session under its own
id, preserving creation time and message count, as long as any LLM-issued
recommendation parses and any agent dispatch can classify. -/
theorem adaptive_dispatch_spec (st1 : CMState) (s3 : Session) (c : Collab)
    (now : Nat) (msg : String) (u0 : CtxEntry) (rest : List CtxEntry)
    (hctx : s3.context = u0 :: rest)
    (h4 : (TaskType.ofString (analyze_intent msg c.classifier).task_type).isSome)
    (h5 : ∀ r, c.intent_llm = some r → (ChatMode.ofString r.recommended_mode).isSome) :
    ∃ st2 resp, process_adaptive_mode st1 s3 c now msg = .ok (st2, resp) ∧
      resp.sid = s3.session_id ∧
      ∃ s2, aget s3.session_id st2.active_sessions = some s2 ∧
        s2.created_at = s3.created_at ∧ s2.message_count = s3.message_count ∧
        s2.context.head? = some u0 := by
  by_cases hconf : (0.7 : ℚ) < (analyze_message_intent msg c.intent_llm).confidence
  · have hof : (ChatMode.ofString
        (analyze_message_intent msg c.intent_llm).recommended_mode).isSome := by
      rcases hllm : c.intent_llm with _ | r
      · exact fallback_mode_parses msg
      · exact h5 r hllm
    cases hrec : ((analyze_message_intent msg c.intent_llm).recommended_mode == "agent") with
    | true =>
      have hrec2 : (analyze_message_intent msg c.intent_llm).recommended_mode = "agent" := by
        simpa using hrec
      obtain ⟨ty, hty⟩ := Option.isSome_iff_exists.mp h4
      have hmain := process_adaptive_high_agent st1 s3 c now msg ty hconf hrec2 hty
      refine ⟨_, _, hmain, rfl, _, aget_aset_self _ _ _,
        (ensure_workspace_spec { s3 with mode := ChatMode.agent } c).2.2.1,
        (ensure_workspace_spec { s3 with mode := ChatMode.agent } c).2.2.2.1, ?_⟩
      show (((ensure_workspace { s3 with mode := ChatMode.agent } c).context ++ _).head?) = some u0
      rw [(ensure_workspace_spec { s3 with mode := ChatMode.agent } c).2.2.2.2.1]
      show ((s3.context ++ _).head?) = some u0
      rw [hctx]
      rfl
    | false =>
      obtain ⟨mrec, hmrec⟩ := Option.isSome_iff_exists.mp hof
      have hmain := process_adaptive_high_other st1 s3 c now msg mrec hconf hmrec hrec
      refine ⟨_, _, hmain, rfl, _, aget_aset_self _ _ _, rfl, rfl, ?_⟩
      show ((s3.context ++ _).head?) = some u0
      rw [hctx]
      rfl
  · have hmain := process_adaptive_low st1 s3 c now msg hconf
    refine ⟨_, _, hmain, rfl, _, aget_aset_self _ _ _, rfl, rfl, ?_⟩
    show ((s3.context ++ _).head?) = some u0
    rw [hctx]
    rfl

/-- C9: `process_message` with an unknown session id never fails NotFound:
a fresh session is silently created (with the explicitly passed mode, or
ADAPTIVE by default), the message is processed in it, and the returned
session id is the freshly drawn one, which differs from the unknown id
passed in (uuid freshness).  The hypotheses inject uuid freshness and
well-formed collaborator outputs for any agent dispatch. -/
theorem c9_unknown_session_creates (st : CMState) (sid msg : String)
    (mode : Option ChatMode) (c : Collab) (now : Nat)
    (h1 : aget sid st.active_sessions = none)
    (h3 : c.fresh_session_id ≠ sid)
    (h4 : (TaskType.ofString (analyze_intent msg c.classifier).task_type).isSome)
    (h5 : ∀ r, c.intent_llm = some r → (ChatMode.ofString r.recommended_mode).isSome) :
    ∃ st2 resp, process_message st sid msg mode c now = .ok (st2, resp) ∧
      resp.sid = c.fresh_session_id ∧ resp.sid ≠ sid ∧
      ∃ s2, aget c.fresh_session_id st2.active_sessions = some s2 ∧
        s2.created_at = now ∧ s2.message_count = 1 ∧
        s2.context.head? = some
          { role := "user", content := msg, timestamp := now,
            mode := (mode.getD ChatMode.adaptive).toStr } := by
  have hfront := process_message_fresh st sid msg mode c now h1
  rcases mode with _ | m
  · obtain ⟨st2, resp, hm, hsid, s2, hag, hca, hmc, hh⟩ :=
      adaptive_dispatch_spec (fresh_front_state st msg none c now)
        (fresh_session_after_msg msg none c now) c now msg _ [] rfl h4 h5
    refine ⟨st2, resp, ?_, ?_, ?_, s2, hag, hca, hmc, hh⟩
    · rw [hfront]
      exact hm
    · exact hsid
    · rw [hsid]
      exact h3
  · rcases m with _ | _ | _ | _
    · obtain ⟨st2, resp, hm, hsid, s2, hag, hca, hmc, hh⟩ :=
        adaptive_dispatch_spec (fresh_front_state st msg (some .adaptive) c now)
          (fresh_session_after_msg msg (some .adaptive) c now) c now msg _ [] rfl h4 h5
      refine ⟨st2, resp, ?_, ?_, ?_, s2, hag, hca, hmc, hh⟩
      · rw [hfront]
        exact hm
      · exact hsid
      · rw [hsid]
        exact h3
    · obtain ⟨ty, hty⟩ := Option.isSome_iff_exists.mp h4
      have hmain := process_agent_mode_eq (fresh_front_state st msg (some .agent) c now)
        (fresh_session_after_msg msg (some .agent) c now) c now msg ty hty
      have hpm := hfront.trans hmain
      refine ⟨_, _, hpm, rfl, h3, _, aget_aset_self _ _ _,
        (ensure_workspace_spec (fresh_session_after_msg msg (some .agent) c now) c).2.2.1,
        (ensure_workspace_spec (fresh_session_after_msg msg (some .agent) c now) c).2.2.2.1, ?_⟩
      show (((ensure_workspace (fresh_session_after_msg msg (some .agent) c now) c).context ++ _).head?) = _
      rw [(ensure_workspace_spec (fresh_session_after_msg msg (some .agent) c now) c).2.2.2.2.1]
      rfl
    · have hpm := hfront.trans (congrArg Except.ok
        (process_chat_mode_spec (fresh_front_state st msg (some .chat) c now)
          (fresh_session_after_msg msg (some .chat) c now) c now msg))
      exact ⟨_, _, hpm, rfl, h3, _, aget_aset_self _ _ _, rfl, rfl, rfl⟩
    · have hpm := hfront.trans (congrArg Except.ok
        (process_chat_mode_spec (fresh_front_state st msg (some .custom) c now)
          (fresh_session_after_msg msg (some .custom) c now) c now msg))
      exact ⟨_, _, hpm, rfl, h3, _, aget_aset_self _ _ _, rfl, rfl, rfl⟩

/-- The collaborator bundle of the C9 witness call. -/
def c9w_collab : Collab :=
  { intent_llm := none, chat_llm := .ok "hey", classifier := none,
    exec_result := ⟨true, "", ""⟩, fresh_task_id := "t1",
    fresh_workspace_id := "w1", fresh_session_id := "s1" }

/-- Witness for C9: a message sent to the unknown session id `sX` on an
empty manager. -/
theorem c9_witness :
    ∃ st2 resp, process_message ⟨[], ⟨[], []⟩⟩ "sX" "hello" none c9w_collab 5 =
      .ok (st2, resp) ∧
      resp.sid = c9w_collab.fresh_session_id ∧ resp.sid ≠ "sX" ∧
      ∃ s2, aget c9w_collab.fresh_session_id st2.active_sessions = some s2 ∧
        s2.created_at = 5 ∧ s2.message_count = 1 ∧
        s2.context.head? = some
          { role := "user", content := "hello", timestamp := 5,
            mode := ((none : Option ChatMode).getD ChatMode.adaptive).toStr } :=
  c9_unknown_session_creates ⟨[], ⟨[], []⟩⟩ "sX" "hello" none c9w_collab 5 rfl
    (by decide) (by decide) (fun r hr => Option.noConfusion hr)

/-- Agent-keyword score of the C3 scenario message: `build` and `website`
match, nothing else. -/
theorem c3_agent_score :
    agent_keywords.countP (fun k => strContains (strLower "build me a website") k) = 2 := by
  decide

/-- Chat-keyword score of the C3 scenario message: no chat keyword
occurs. -/
theorem c3_chat_score :
    chat_keywords.countP (fun k => strContains (strLower "build me a website") k) = 0 := by
  decide

/-- The keyword fallback recommends agent mode for the scenario message. -/
theorem c3_recommended :
    (analyze_message_intent "build me a website" none).recommended_mode = "agent" := by
  simp only [analyze_message_intent]
  rw [c3_agent_score, c3_chat_score]
  rfl

/-- The fallback confidence of the scenario message is exactly 0.7:
`min(0.8, 0.5 + 2*0.1)`. -/
theorem c3_confidence :
    (analyze_message_intent "build me a website" none).confidence = 0.7 := by
  simp only [analyze_message_intent]
  rw [c3_agent_score, c3_chat_score]
  show min (0.8 : ℚ) (0.5 + ((2 : Nat) : ℚ) * 0.1) = 0.7
  norm_num [min_def]

/-- 0.7 is not strictly above the 0.7 threshold. -/
theorem c3_conf_not_gt :
    ¬ ((0.7 : ℚ) < (analyze_message_intent "build me a website" none).confidence) := by
  rw [c3_confidence]
  exact lt_irrefl _

/-- The manager state of the C3 scenario: one session `s1` in ADAPTIVE
mode. -/
def c3_state : CMState := (create_chat_session ⟨[], ⟨[], []⟩⟩ .adaptive none "s1" 0).1

/-- The session record of the C3 scenario. -/
def c3_sess : Session :=
  { session_id := "s1", user_id := none, mode := .adaptive, created_at := 0,
    last_activity := 0, message_count := 0, context := [],
    workspace_id := none, task_history := [], preferences := {} }

/-- The collaborator bundle of the C3 scenario: the intent LLM fails, so
the keyword fallback runs. -/
def c3_collab : Collab :=
  { intent_llm := none, chat_llm := .ok "Sure!", classifier := none,
    exec_result := ⟨true, "", ""⟩, fresh_task_id := "t1",
    fresh_workspace_id := "w1", fresh_session_id := "s2" }

/-- C3 counterexample to the claim as stated: for "build me a website"
with empty context in an ADAPTIVE session, the fallback confidence is
exactly `min(0.8, 0.5 + 2*0.1) = 0.7`, which is not **strictly** above
0.7, so the stored mode does NOT switch to AGENT — it stays ADAPTIVE. -/
theorem c3_counterexample :
    (process_message c3_state "s1" "build me a website" none c3_collab 1).toOption.map
      (fun p => (aget "s1" p.1.active_sessions).map (fun s => s.mode)) =
      some (some ChatMode.adaptive) ∧
    ChatMode.adaptive ≠ ChatMode.agent := by
  have hfront := process_message_known c3_state "s1" "build me a website"
    none c3_collab 1 c3_sess rfl
  have hmain := process_adaptive_low
    { c3_state with active_sessions := (aset "s1"
        (known_session_after_msg c3_sess "build me a website" none 1)
        c3_state.active_sessions) }
    (known_session_after_msg c3_sess "build me a website" none 1)
    c3_collab 1 "build me a website" c3_conf_not_gt
  have hpm := hfront.trans hmain
  rw [hpm]
  exact ⟨rfl, by decide⟩

/-- C3 (amended): for "build me a website" with empty context the keyword
fallback scores 2 agent keywords and 0 chat keywords, recommends "agent"
with confidence exactly 0.7 (≥ 0.6) — but since mode switches only when
confidence is strictly greater than 0.7, the session's stored mode stays
ADAPTIVE and the message is dispatched as CHAT with
`clarification_needed = true`.  In general the stored mode switches to the
recommendation exactly when confidence > 0.7. -/
theorem c3_adaptive_keyword_routing :
    ((analyze_message_intent "build me a website" none).recommended_mode = "agent" ∧
     (analyze_message_intent "build me a website" none).confidence = 0.7 ∧
     (0.6 : ℚ) ≤ (analyze_message_intent "build me a website" none).confidence ∧
     ¬ ((0.7 : ℚ) < (analyze_message_intent "build me a website" none).confidence)) ∧
    (∃ st2 resp,
      process_message c3_state "s1" "build me a website" none c3_collab 1 =
        .ok (st2, resp) ∧
      (aget "s1" st2.active_sessions).map (fun s => s.mode) =
        some ChatMode.adaptive ∧
      resp.adaptive.map (fun i => (i.mode_switched, i.clarification_needed,
        i.recommended_mode)) = some (false, true, "agent")) ∧
    (∀ (st : CMState) (s : Session) (c : Collab) (now : Nat) (msg : String),
      ¬ ((0.7 : ℚ) < (analyze_message_intent msg c.intent_llm).confidence) →
      ∃ st2 resp, process_adaptive_mode st s c now msg = .ok (st2, resp) ∧
        (aget s.session_id st2.active_sessions).map (fun x => x.mode) = some s.mode ∧
        resp.adaptive.map (fun i => (i.mode_switched, i.clarification_needed)) =
          some (false, true)) ∧
    (∀ (st : CMState) (s : Session) (c : Collab) (now : Nat) (msg : String)
       (m : ChatMode),
      (0.7 : ℚ) < (analyze_message_intent msg c.intent_llm).confidence →
      ChatMode.ofString (analyze_message_intent msg c.intent_llm).recommended_mode =
        some m →
      ((analyze_message_intent msg c.intent_llm).recommended_mode = "agent" →
        (TaskType.ofString (analyze_intent msg c.classifier).task_type).isSome) →
      ∃ st2 resp, process_adaptive_mode st s c now msg = .ok (st2, resp) ∧
        (aget s.session_id st2.active_sessions).map (fun x => x.mode) = some m ∧
        resp.adaptive.map (fun i => i.mode_switched) = some true) := by
  refine ⟨⟨c3_recommended, c3_confidence, ?_, c3_conf_not_gt⟩, ?_, ?_, ?_⟩
  · rw [c3_confidence]
    norm_num
  · have hfront := process_message_known c3_state "s1" "build me a website"
      none c3_collab 1 c3_sess rfl
    have hmain := process_adaptive_low
      { c3_state with active_sessions := (aset "s1"
          (known_session_after_msg c3_sess "build me a website" none 1)
          c3_state.active_sessions) }
      (known_session_after_msg c3_sess "build me a website" none 1)
      c3_collab 1 "build me a website" c3_conf_not_gt
    exact ⟨_, _, hfront.trans hmain, rfl, rfl⟩
  · intro st s c now msg hconf
    have hmain := process_adaptive_low st s c now msg hconf
    refine ⟨_, _, hmain, ?_, rfl⟩
    rw [aget_aset_self]
    rfl
  · intro st s c now msg m hconf hof himpl
    cases hrec : ((analyze_message_intent msg c.intent_llm).recommended_mode == "agent") with
    | true =>
      have hrec2 : (analyze_message_intent msg c.intent_llm).recommended_mode = "agent" := by
        simpa using hrec
      obtain ⟨ty, hty⟩ := Option.isSome_iff_exists.mp (himpl hrec2)
      have hmain := process_adaptive_high_agent st s c now msg ty hconf hrec2 hty
      have hm : m = ChatMode.agent := by
        rw [hrec2, ofString_agent] at hof
        exact (Option.some.injEq _ _ ▸ hof).symm
      subst hm
      refine ⟨_, _, hmain, ?_, rfl⟩
      rw [aget_aset_self]
      have hmode := (ensure_workspace_spec { s with mode := ChatMode.agent } c).2.1
      simp only [Option.map_some]
      exact congrArg some hmode
    | false =>
      have hmain := process_adaptive_high_other st s c now msg m hconf hof hrec
      refine ⟨_, _, hmain, ?_, rfl⟩
      rw [aget_aset_self]
      rfl

/-- Witness for C3: the low-confidence clause applied to the concrete
scenario session and message. -/
theorem c3_witness :
    ∃ st2 resp, process_adaptive_mode c3_state c3_sess c3_collab 1
        "build me a website" = .ok (st2, resp) ∧
      (aget c3_sess.session_id st2.active_sessions).map (fun x => x.mode) =
        some c3_sess.mode ∧
      resp.adaptive.map (fun i => (i.mode_switched, i.clarification_needed)) =
        some (false, true) :=
  c3_adaptive_keyword_routing.2.2.1 c3_state c3_sess c3_collab 1
    "build me a website" c3_conf_not_gt

end ValisSpec
